import Mathlib

/-! Task submission in libgearman (`libgearman/add.cc`).

A shallow embedding of the three `add_task` overloads and of `add_reducer_task`,
together with the part of the client structure (`libgearman/interface/client.hpp`)
that they read and write.

Conventions of the embedding.

* A byte is a natural number; a byte string is a list of them.
* A pointer is `none` (NULL) or `some m`, where `m` lists the bytes that can be read
  starting at the pointed-to address.  Reading `n` bytes through `some m` is
  `m.take n` and is only defined when `n ≤ m.length`.
* `uint32_t` counters are naturals reduced modulo `2 ^ 32` at every increment.
* Undefined behaviour and failed assertions are results of their own (`Fault`), so a
  call either faults or returns the pair of the returned task pointer and the client
  state after the call.
* Everything the functions obtain from outside `add.cc` at run time (the bytes of the
  generated UUID, whether task storage can be allocated, what the packet builder
  answers, whether assertions are compiled in) is gathered in `Env`.
-/

namespace Gearman

/-! ## Bytes, pointers and byte strings -/

/-- A byte string. -/
abbrev Bytes := List Nat

/-- A pointer: NULL, or the bytes readable from the address onwards. -/
abbrev Ptr := Option Bytes

/-- The pair `{ const char *c_str; size_t size; }` of `gearman_string_t`. -/
structure gearman_string_t where
  c_str : Ptr
  size : Nat
deriving DecidableEq

/-- In the sources `gearman_unique_t` is the same pair of pointer and size. -/
abbrev gearman_unique_t := gearman_string_t

/-- The accessor macro `gearman_c_str(X)`, i.e. `(X).c_str`. -/
def gearman_c_str (x : gearman_string_t) : Ptr := x.c_str

/-- The accessor macro `gearman_size(X)`, i.e. `(X).size`. -/
def gearman_size (x : gearman_string_t) : Nat := x.size

/-- What stops a call short of returning. -/
inductive Fault where
  | assertion_failed
  | null_dereference
  | out_of_bounds_read
  | buffer_overflow
deriving DecidableEq

/-- One entry of the `args` / `args_size` arrays handed to the packet builder. -/
structure arg_t where
  ptr : Ptr
  size : Nat
deriving DecidableEq

/-- The bytes the packet builder reads for an argument: `size` bytes through `ptr`.
Undefined (`none`) when the pointer is NULL with a non-zero size or when fewer than
`size` bytes are readable. -/
def arg_bytes (a : arg_t) : Option Bytes :=
  match a.ptr with
  | none => if a.size = 0 then some [] else none
  | some m => if a.size ≤ m.length then some (m.take a.size) else none

/-! ## Enumerations declared outside `add.cc` -/

/-- Modelled from the spec: `gearman_return_t` is declared outside the sources at hand.
The codes named in `add.cc` and those of the error taxonomy of the specification. -/
inductive gearman_return_t where
  | GEARMAN_SUCCESS
  | GEARMAN_IO_WAIT
  | GEARMAN_ERRNO
  | GEARMAN_LOST_CONNECTION
  | GEARMAN_COULD_NOT_CONNECT
  | GEARMAN_MEMORY_ALLOCATION_FAILURE
  | GEARMAN_INVALID_ARGUMENT
  | GEARMAN_SERVER_ERROR
  | GEARMAN_INVALID_PACKET
  | GEARMAN_TOO_MANY_ARGS
  | GEARMAN_ARGUMENT_TOO_LARGE
  | GEARMAN_TIMEOUT
deriving DecidableEq

/-- Modelled from the spec: `gearman_success` is declared outside the sources at hand;
it is taken to test for the one normal code, `GEARMAN_SUCCESS`. -/
def gearman_success (rc : gearman_return_t) : Bool :=
  decide (rc = gearman_return_t.GEARMAN_SUCCESS)

/-- Modelled from the spec: `gearman_command_t` is declared outside the sources at hand.
The request and response kinds listed in the data model of the specification. -/
inductive gearman_command_t where
  | GEARMAN_COMMAND_SUBMIT_JOB
  | GEARMAN_COMMAND_SUBMIT_JOB_HIGH
  | GEARMAN_COMMAND_SUBMIT_JOB_LOW
  | GEARMAN_COMMAND_SUBMIT_JOB_BG
  | GEARMAN_COMMAND_SUBMIT_JOB_HIGH_BG
  | GEARMAN_COMMAND_SUBMIT_JOB_LOW_BG
  | GEARMAN_COMMAND_SUBMIT_JOB_EPOCH
  | GEARMAN_COMMAND_SUBMIT_JOB_SCHED
  | GEARMAN_COMMAND_SUBMIT_REDUCE_JOB
  | GEARMAN_COMMAND_SUBMIT_REDUCE_JOB_BACKGROUND
  | GEARMAN_COMMAND_GET_STATUS
  | GEARMAN_COMMAND_OPTION_REQ
  | GEARMAN_COMMAND_ECHO_REQ
  | GEARMAN_COMMAND_JOB_CREATED
  | GEARMAN_COMMAND_WORK_STATUS
  | GEARMAN_COMMAND_WORK_COMPLETE
  | GEARMAN_COMMAND_WORK_FAIL
  | GEARMAN_COMMAND_WORK_EXCEPTION
  | GEARMAN_COMMAND_WORK_DATA
  | GEARMAN_COMMAND_WORK_WARNING
  | GEARMAN_COMMAND_STATUS_RES
  | GEARMAN_COMMAND_OPTION_RES
  | GEARMAN_COMMAND_ECHO_RES
  | GEARMAN_COMMAND_ERROR
deriving DecidableEq

/-- Modelled from the spec: `gearman_magic_t` is declared outside the sources at hand. -/
inductive gearman_magic_t where
  | GEARMAN_MAGIC_TEXT
  | GEARMAN_MAGIC_REQUEST
  | GEARMAN_MAGIC_RESPONSE
deriving DecidableEq

/-- Modelled from the spec: `gearman_job_priority_t` is declared outside the sources at
hand. -/
inductive gearman_job_priority_t where
  | GEARMAN_JOB_PRIORITY_HIGH
  | GEARMAN_JOB_PRIORITY_NORMAL
  | GEARMAN_JOB_PRIORITY_LOW
deriving DecidableEq

/-- The client-wide state of `client.hpp`. -/
inductive gearman_client_t where
  | GEARMAN_CLIENT_STATE_IDLE
  | GEARMAN_CLIENT_STATE_NEW
  | GEARMAN_CLIENT_STATE_SUBMIT
  | GEARMAN_CLIENT_STATE_PACKET
deriving DecidableEq

/-! ## Packets, tasks and the client -/

/-- What `add.cc` stores into a packet: magic, command and the argument array. -/
structure gearman_packet_st where
  magic : gearman_magic_t
  command : gearman_command_t
  args : List arg_t
deriving DecidableEq

/-- The callback set `gearman_actions_t`, copied as a whole; only its identity matters
here. -/
structure gearman_actions_t where
  id : Nat
deriving DecidableEq

/-- The fields of `gearman_task_st` that `add.cc` touches. -/
structure gearman_task_st where
  options_allocated : Bool
  options_send_in_use : Bool
  context : Option Nat
  func : gearman_actions_t
  send : Option gearman_packet_st
deriving DecidableEq

/-- The error slot and the namespace of `gearman_universal_st`.  `error_text` is the
message given at the call site that recorded the error, when one was given. -/
structure gearman_universal_st where
  _namespace : Option Bytes
  error_rc : gearman_return_t
  error_text : Option String
deriving DecidableEq

/-- The `Options` of `Client` in `client.hpp`. -/
structure Client_Options where
  allocated : Bool
  non_blocking : Bool
  unbuffered_result : Bool
  no_new : Bool
  free_tasks : Bool
deriving DecidableEq

/-- The `Client` structure of `client.hpp`, which `add.cc` reaches through
`gearman_client_st *`.  Pointers that `add.cc` never follows are kept as addresses. -/
structure gearman_client_st where
  options : Client_Options
  state : gearman_client_t
  new_tasks : Nat
  running_tasks : Nat
  task_count : Nat
  context : Option Nat
  con : Option Nat
  task : Option Nat
  task_list : List gearman_task_st
  universal : gearman_universal_st
deriving DecidableEq

/-- The constructor `Client::Client` of `client.hpp`, for a universal structure `u`. -/
def Client_new (u : gearman_universal_st) : gearman_client_st :=
  { options := { allocated := true, non_blocking := false, unbuffered_result := false,
                 no_new := false, free_tasks := false }
    state := gearman_client_t.GEARMAN_CLIENT_STATE_IDLE
    new_tasks := 0
    running_tasks := 0
    task_count := 0
    context := none
    con := none
    task := none
    task_list := []
    universal := u }

/-- What the functions of `add.cc` obtain from outside at run time. -/
structure Env where
  /-- whether `NDEBUG` is defined, so that `assert` expands to nothing -/
  NDEBUG : Bool
  /-- the sixteen bytes `uuid_generate` produces -/
  uuid : Bytes
  /-- whether `gearman_task_internal_create` finds storage for a new task -/
  alloc_task : Bool
  /-- the code `gearman_packet_create_args` answers for a command and its arguments -/
  packet_create_args : gearman_command_t → List arg_t → gearman_return_t

/-- Modelled from the spec: `gearman_error` is declared outside the sources at hand; it
records the code and the message of the call site as the last error of the client. -/
def gearman_error (u : gearman_universal_st) (rc : gearman_return_t) (text : String) :
    gearman_universal_st :=
  { u with error_rc := rc, error_text := some text }

/-- Modelled from the spec: `gearman_gerror` is declared outside the sources at hand; it
records the code as the last error of the client, the call site giving no message. -/
def gearman_gerror (u : gearman_universal_st) (rc : gearman_return_t) :
    gearman_universal_st :=
  { u with error_rc := rc, error_text := none }

/-- Modelled from the spec: `gearman_universal_error_code` is declared outside the
sources at hand; it reads the last error code of the client. -/
def gearman_universal_error_code (u : gearman_universal_st) : gearman_return_t :=
  u.error_rc

/-- Increment of a `uint32_t`. -/
def uint32_incr (n : Nat) : Nat := (n + 1) % 2 ^ 32

/-- Decrement of a `uint32_t`: zero wraps around to `2 ^ 32 - 1`. -/
def uint32_decr (n : Nat) : Nat := if n % 2 ^ 32 = 0 then 2 ^ 32 - 1 else n % 2 ^ 32 - 1

/-- Modelled from the spec: `gearman_task_internal_create` is declared outside the
sources at hand.  A task is created by a submission call, in the storage of the caller
when given and in fresh storage otherwise (which can fail); the client owns it through
its task list and counts it in `task_count`. -/
def gearman_task_internal_create (env : Env) (client : gearman_client_st)
    (task : Option gearman_task_st) : Option (gearman_task_st × gearman_client_st) :=
  let link (t : gearman_task_st) : gearman_task_st × gearman_client_st :=
    (t, { client with task_list := t :: client.task_list
                      task_count := uint32_incr client.task_count })
  match task with
  | some t => some (link { t with options_allocated := false, options_send_in_use := false,
                                  send := none })
  | none =>
    if env.alloc_task then
      some (link { options_allocated := true, options_send_in_use := false,
                   context := none, func := { id := 0 }, send := none })
    else none

/-- Modelled from the spec: `gearman_task_free` is declared outside the sources at hand.
The task leaves the task list of its client and is no longer counted. -/
def gearman_task_free (client : gearman_client_st) (task : gearman_task_st) :
    gearman_client_st :=
  { client with task_list := client.task_list.erase task
                task_count := uint32_decr client.task_count }

/-! ## Library routines used by `add.cc` -/

/-- The C routine `memcpy(ptr, src, n)` where `ptr` is the write position in a local
buffer of `capacity` bytes whose first `written.length` bytes hold `written`.  The
result is the content of the buffer up to the end of the copy. -/
def memcpy (capacity : Nat) (written : Bytes) (src : Ptr) (n : Nat) : Except Fault Bytes :=
  match src with
  | none => .error Fault.null_dereference
  | some m =>
    if m.length < n then .error Fault.out_of_bounds_read
    else if capacity < written.length + n then .error Fault.buffer_overflow
    else .ok (written ++ m.take n)

/-- The offset of the first NUL among the readable bytes, if there is one. -/
def nul_offset : Bytes → Option Nat
  | [] => none
  | b :: m => if b = 0 then some 0 else (nul_offset m).map (fun n => n + 1)

/-- The C routine `strlen`: the number of bytes before the first NUL. -/
def strlen (s : Ptr) : Except Fault Nat :=
  match s with
  | none => .error Fault.null_dereference
  | some m =>
    match nul_offset m with
    | none => .error Fault.out_of_bounds_read
    | some n => .ok n

/-- One lower-case hexadecimal digit in ASCII. -/
def hex_digit (n : Nat) : Nat := if n % 16 < 10 then 48 + n % 16 else 87 + n % 16

/-- The two hexadecimal digits of a byte. -/
def hex_byte (b : Nat) : Bytes := [hex_digit (b / 16), hex_digit b]

/-- The libuuid routine `uuid_unparse`: the 36 characters
`xxxxxxxx-xxxx-xxxx-xxxx-xxxxxxxxxxxx` of the sixteen bytes of a UUID (the terminating
NUL it also writes is added where the buffer is filled). -/
def uuid_unparse (uu : Bytes) : Bytes :=
  let b (i : Nat) : Bytes := hex_byte (uu.getD i 0)
  b 0 ++ b 1 ++ b 2 ++ b 3 ++ [45] ++ b 4 ++ b 5 ++ [45] ++ b 6 ++ b 7 ++ [45] ++
    b 8 ++ b 9 ++ [45] ++ b 10 ++ b 11 ++ b 12 ++ b 13 ++ b 14 ++ b 15

/-- Whether a byte is one of `0-9a-f`. -/
def is_hex (c : Nat) : Bool := (decide (48 ≤ c) && decide (c ≤ 57)) || (decide (97 ≤ c) && decide (c ≤ 102))

/-- The canonical text form of a UUID: 36 bytes, hyphens at offsets 8, 13, 18 and 23,
hexadecimal digits elsewhere. -/
def uuid_canonical (s : Bytes) : Bool :=
  decide (s.length = 36) &&
    (List.range 36).all (fun i =>
      if i = 8 ∨ i = 13 ∨ i = 18 ∨ i = 23 then s.getD i 0 == 45 else is_hex (s.getD i 0))

/-- Decimal ASCII digits of a natural number. -/
def decimal (n : Nat) : Bytes := (Nat.toDigits 10 n).map Char.toNat

/-- The text the conversion `%lld` produces for a `long long`. -/
def lld (v : Int) : Bytes := if v < 0 then 45 :: decimal v.natAbs else decimal v.toNat

/-- The C routine `snprintf(buf, size, "%lld", v)`: the content written to `buf` (at
most `size - 1` characters and a NUL) and the returned length of the untruncated
text. -/
def snprintf_lld (size : Nat) (v : Int) : Bytes × Nat :=
  ((lld v).take (size - 1) ++ [0], (lld v).length)

/-! ## The argument arrays of `add.cc` -/

/-- Lines 141-158 of `add_task`, and the same code at lines 250-267 and 285-302 of
`add_reducer_task`: the argument for a function or reducer name.  With a namespace the
namespace and then the name with the byte after it are copied into a buffer of 1024
bytes; without one the argument is the name pointer itself, one byte longer than the
name. -/
def name_arg (ns : Option Bytes) (name : gearman_string_t) : Except Fault arg_t :=
  match ns with
  | some n =>
    match memcpy 1024 [] (some n) n.length with
    | .error f => .error f
    | .ok buf1 =>
      match memcpy 1024 buf1 (gearman_c_str name) (gearman_size name + 1) with
      | .error f => .error f
      | .ok function_buffer =>
        .ok { ptr := some function_buffer, size := n.length + gearman_size name + 1 }
  | none => .ok { ptr := gearman_c_str name, size := gearman_size name + 1 }

/-- Lines 160-172 of `add_task` and 269-281 of `add_reducer_task`: the argument for
the unique id. -/
def unique_arg (uuid : Bytes) (unique : gearman_unique_t) : arg_t :=
  if gearman_size unique ≠ 0 then
    { ptr := gearman_c_str unique, size := gearman_size unique + 1 }
  else
    let uuid_string : Bytes := (uuid_unparse uuid ++ [0]).set 36 0
    { ptr := some uuid_string, size := 36 + 1 }

/-- Lines 177-180 of `add_task`: the argument for `when`. -/
def epoch_arg (when_ : Int) : arg_t :=
  let time_string := (snprintf_lld 30 when_).1
  let length := (snprintf_lld 30 when_).2
  { ptr := some time_string, size := length + 1 }

/-- Lines 141-198 of `add_task`: the argument array handed to
`gearman_packet_create_args`; its length is the count passed along. -/
def add_task_args (ns : Option Bytes) (uuid : Bytes) (command : gearman_command_t)
    (function : gearman_string_t) (unique : gearman_unique_t) (workload : gearman_string_t)
    (when_ : Int) : Except Fault (List arg_t) :=
  match name_arg ns function with
  | .error f => .error f
  | .ok a0 =>
    let a1 := unique_arg uuid unique
    if command = gearman_command_t.GEARMAN_COMMAND_SUBMIT_JOB_EPOCH then
      .ok [a0, a1, epoch_arg when_,
           { ptr := gearman_c_str workload, size := gearman_size workload }]
    else
      .ok [a0, a1, { ptr := gearman_c_str workload, size := gearman_size workload }]

/-- Lines 250-318 of `add_reducer_task`: the argument array handed to
`gearman_packet_create_args`, with the assertions met on the way. -/
def add_reducer_task_args (ndebug : Bool) (ns : Option Bytes) (uuid : Bytes)
    (command : gearman_command_t) (function reducer : gearman_string_t)
    (unique : gearman_unique_t) (workload : gearman_string_t) : Except Fault (List arg_t) :=
  match name_arg ns function with
  | .error f => .error f
  | .ok a0 =>
    let a1 := unique_arg uuid unique
    if !ndebug && !(decide (command = gearman_command_t.GEARMAN_COMMAND_SUBMIT_REDUCE_JOB) ||
        decide (command = gearman_command_t.GEARMAN_COMMAND_SUBMIT_REDUCE_JOB_BACKGROUND)) then
      .error Fault.assertion_failed
    else
      match name_arg ns reducer with
      | .error f => .error f
      | .ok a2 =>
        let aggregate : Bytes := [0]
        let a3 : arg_t := { ptr := some aggregate, size := 1 }
        if !ndebug && (gearman_c_str workload).isNone then .error Fault.assertion_failed
        else if !ndebug && gearman_size workload == 0 then .error Fault.assertion_failed
        else
          .ok [a0, a1, a2, a3,
               { ptr := gearman_c_str workload, size := gearman_size workload }]

/-! ## The submission functions -/

/-- The result of a submission: the task pointer returned and the client afterwards. -/
abbrev Submitted := Except Fault (Option gearman_task_st × gearman_client_st)

/-- The test at line 122 of `add_task`, and at line 231 of `add_reducer_task`. -/
def invalid_workload (workload : gearman_string_t) : Bool :=
  (decide (gearman_size workload ≠ 0) && (gearman_c_str workload).isNone) ||
    (decide (gearman_size workload = 0) && (gearman_c_str workload).isSome)

/-- Lines 200-212 of `add_task` and 314-331 of `add_reducer_task`: the packet builder
is called on the `send` packet of the task; on success the counters move and the task
is returned, otherwise the task is freed and the code recorded (in either order, the
two touching different fields).  The task is the one `gearman_task_internal_create`
linked at the head of the task list, so a write through the task pointer rewrites that
head. -/
def finish_submit (env : Env) (client : gearman_client_st) (task : gearman_task_st)
    (command : gearman_command_t) (args : List arg_t) :
    Option gearman_task_st × gearman_client_st :=
  let rc := env.packet_create_args command args
  if gearman_success rc then
    let sent : gearman_task_st :=
      { task with send := some { magic := gearman_magic_t.GEARMAN_MAGIC_REQUEST,
                                 command := command, args := args }
                  options_send_in_use := true }
    (some sent, { client with new_tasks := uint32_incr client.new_tasks
                              running_tasks := uint32_incr client.running_tasks
                              task_list := sent :: client.task_list.tail })
  else
    let freed := gearman_task_free client task
    (none, { freed with universal := gearman_gerror freed.universal rc })

/-- The main overload `add_task` of lines 107-213. -/
def add_task (env : Env) (client : gearman_client_st) (task : Option gearman_task_st)
    (context : Option Nat) (command : gearman_command_t) (function : gearman_string_t)
    (unique : gearman_unique_t) (workload : gearman_string_t) (when_ : Int)
    (actions : gearman_actions_t) : Submitted :=
  if invalid_workload workload then
    .ok (none, { client with
      universal := gearman_error client.universal
        gearman_return_t.GEARMAN_INVALID_ARGUMENT "invalid workload" })
  else
    match gearman_task_internal_create env client task with
    | none =>
      .ok (none, { client with
        universal := gearman_error client.universal
          gearman_return_t.GEARMAN_MEMORY_ALLOCATION_FAILURE "" })
    | some (created, client1) =>
      let task1 : gearman_task_st := { created with context := context, func := actions }
      let client2 : gearman_client_st :=
        { client1 with task_list := task1 :: client1.task_list.tail }
      match add_task_args client2.universal._namespace env.uuid command function unique
          workload when_ with
      | .error f => .error f
      | .ok args => .ok (finish_submit env client2 task1 command args)

/-- The function `add_reducer_task` of lines 215-332; the priority and `when`
parameters are unnamed in the source. -/
def add_reducer_task (env : Env) (client : gearman_client_st) (command : gearman_command_t)
    (_priority : gearman_job_priority_t) (function reducer : gearman_string_t)
    (unique : gearman_unique_t) (workload : gearman_string_t) (actions : gearman_actions_t)
    (_when : Int) (context : Option Nat) : Submitted :=
  if invalid_workload workload then
    .ok (none, { client with
      universal := gearman_error client.universal
        gearman_return_t.GEARMAN_INVALID_ARGUMENT "invalid workload" })
  else
    match gearman_task_internal_create env client none with
    | none =>
      .ok (none, { client with
        universal := gearman_error client.universal
          gearman_return_t.GEARMAN_MEMORY_ALLOCATION_FAILURE "" })
    | some (created, client1) =>
      let task1 : gearman_task_st := { created with context := context, func := actions }
      let client2 : gearman_client_st :=
        { client1 with task_list := task1 :: client1.task_list.tail }
      match add_reducer_task_args env.NDEBUG client2.universal._namespace env.uuid command
          function reducer unique workload with
      | .error f => .error f
      | .ok args => .ok (finish_submit env client2 task1 command args)

/-- Modelled from the spec: the macro `gearman_string_param_cstr` is declared outside
the sources at hand; it is taken to expand to the pointer and its `strlen`, a NULL
pointer having size 0 as the unique id has on the line below it. -/
def gearman_string_param_cstr (s : Ptr) : Except Fault gearman_string_t :=
  match s with
  | none => .ok { c_str := none, size := 0 }
  | some m =>
    match strlen (some m) with
    | .error f => .error f
    | .ok n => .ok { c_str := some m, size := n }

/-- Modelled from the spec: `gearman_unique_make` is declared outside the sources at
hand; the data model carries (pointer, length) pairs and the function returns one by
value, so it is taken to pair its two arguments. -/
def gearman_unique_make (arg : Ptr) (arg_size : Nat) : gearman_unique_t :=
  { c_str := arg, size := arg_size }

/-- What a caller of the `const char *` overload observes: the task pointer returned,
the client afterwards (when there is one), the variable behind `ret_ptr` afterwards
(when the pointer is not NULL) and the value stored to `errno`, if any. -/
structure Returned where
  task : Option gearman_task_st
  client : Option gearman_client_st
  ret : Option gearman_return_t
  errno : Option Nat
deriving DecidableEq

/-- The value of `EINVAL`. -/
def EINVAL : Nat := 22

/-- The overload of `add_task` taking C strings, lines 69-105.  `ret_ptr` is `none` for
a NULL pointer and otherwise holds the current value of the variable pointed to. -/
def add_task_cstr (env : Env) (client : Option gearman_client_st)
    (task : Option gearman_task_st) (context : Option Nat) (command : gearman_command_t)
    (function_name : Ptr) (unique : Ptr) (workload_str : Ptr) (workload_size : Nat)
    (when_ : Int) (ret_ptr : Option gearman_return_t) (actions : gearman_actions_t) :
    Except Fault Returned :=
  match client with
  | none =>
    .ok { task := none, client := none,
          ret := ret_ptr.map (fun _ => gearman_return_t.GEARMAN_ERRNO), errno := some EINVAL }
  | some c =>
    match gearman_string_param_cstr function_name with
    | .error f => .error f
    | .ok function =>
      match (if unique.isSome then strlen unique else .ok 0) with
      | .error f => .error f
      | .ok unique_size =>
        let local_unique := gearman_unique_make unique unique_size
        let workload : gearman_string_t := { c_str := workload_str, size := workload_size }
        match add_task env c task context command function local_unique workload when_
            actions with
        | .error f => .error f
        | .ok (none, c1) =>
          .ok { task := none, client := some c1,
                ret := ret_ptr.map (fun _ => gearman_universal_error_code c1.universal),
                errno := none }
        | .ok (some t, c1) =>
          .ok { task := some t, client := some c1,
                ret := ret_ptr.map (fun _ => gearman_return_t.GEARMAN_SUCCESS), errno := none }

/-- The overload of `add_task` without task storage, lines 57-67. -/
def add_task_new (env : Env) (client : gearman_client_st) (context : Option Nat)
    (command : gearman_command_t) (function : gearman_string_t) (unique : gearman_unique_t)
    (workload : gearman_string_t) (when_ : Int) (actions : gearman_actions_t) : Submitted :=
  add_task env client none context command function unique workload when_ actions

/-! ## Predicates of the statements -/

/-- A submission was turned down by the workload check: no task is returned and the
client holds `GEARMAN_INVALID_ARGUMENT` with the message of that check. -/
def rejected_invalid_argument (r : Submitted) : Prop :=
  ∃ c : gearman_client_st, r = .ok (none, c) ∧
    c.universal.error_rc = gearman_return_t.GEARMAN_INVALID_ARGUMENT ∧
    c.universal.error_text = some "invalid workload"

/-- The workloads the specification rules out: zero length with non-null backing, or
non-zero length with null backing. -/
def malformed_workload (workload : gearman_string_t) : Prop :=
  (workload.size = 0 ∧ workload.c_str ≠ none) ∨ (workload.size ≠ 0 ∧ workload.c_str = none)

/-- The byte string `s` held in storage where a NUL and then `rest` follow it, as a C
string is. -/
def stored (s rest : Bytes) : gearman_string_t :=
  { c_str := some (s ++ 0 :: rest), size := s.length }

/-- The name `name` with the namespace, if any, and the NUL after it fit the buffer of
1024 bytes of `name_arg`; nothing is asked when there is no namespace. -/
def fits_buffer (ns : Option Bytes) (name : Bytes) : Prop :=
  ∀ n : Bytes, ns = some n → n.length + name.length + 1 ≤ 1024

/-- The bytes `namespace || name`, or `name` when there is no namespace. -/
def namespaced (ns : Option Bytes) (name : Bytes) : Bytes :=
  match ns with
  | some n => n ++ name
  | none => name

/-- The assertions of `add_reducer_task` are compiled out or hold: the command is one of
the two reduce commands and the workload has a non-null pointer and a non-zero size. -/
def assertions_pass (ndebug : Bool) (command : gearman_command_t)
    (workload : gearman_string_t) : Prop :=
  ndebug = true ∨
    ((command = gearman_command_t.GEARMAN_COMMAND_SUBMIT_REDUCE_JOB ∨
        command = gearman_command_t.GEARMAN_COMMAND_SUBMIT_REDUCE_JOB_BACKGROUND) ∧
      workload.c_str ≠ none ∧ workload.size ≠ 0)

/-! ## Payloads and sequences of calls -/

/-- The bytes of an argument array laid end to end, defined when every argument is
readable. -/
def args_concat : List arg_t → Option Bytes
  | [] => some []
  | a :: rest =>
    match arg_bytes a, args_concat rest with
    | some b, some r => some (b ++ r)
    | _, _ => none

/-- One call of a submission function on a client, with what the call meets at run
time. -/
inductive Call where
  | add_task (env : Env) (task : Option gearman_task_st) (context : Option Nat)
      (command : gearman_command_t) (function : gearman_string_t)
      (unique : gearman_unique_t) (workload : gearman_string_t) (when_ : Int)
      (actions : gearman_actions_t)
  | add_reducer_task (env : Env) (command : gearman_command_t)
      (priority : gearman_job_priority_t) (function reducer : gearman_string_t)
      (unique : gearman_unique_t) (workload : gearman_string_t)
      (actions : gearman_actions_t) (when_ : Int) (context : Option Nat)

/-- The call made on a client. -/
def Call.run (call : Call) (client : gearman_client_st) : Submitted :=
  match call with
  | .add_task env task context command function unique workload when_ actions =>
    Gearman.add_task env client task context command function unique workload when_ actions
  | .add_reducer_task env command priority function reducer unique workload actions when_
      context =>
    Gearman.add_reducer_task env client command priority function reducer unique workload
      actions when_ context

/-- A sequence of calls made one after the other on a client; `returned` counts the
calls that returned a task.  A fault ends the run. -/
def run_calls : List Call → gearman_client_st → Nat → Except Fault (gearman_client_st × Nat)
  | [], client, returned => .ok (client, returned)
  | call :: rest, client, returned =>
    match call.run client with
    | .error f => .error f
    | .ok (none, c) => run_calls rest c returned
    | .ok (some _, c) => run_calls rest c (returned + 1)

/-! ## Sample values -/

/-- ASCII bytes of a string. -/
def ascii (s : String) : Bytes := s.toList.map Char.toNat

/-- A byte string held in NUL-terminated storage. -/
def cstring (s : Bytes) : gearman_string_t := stored s []

/-- An environment in which allocation and packet building succeed. -/
def env_ok : Env :=
  { NDEBUG := false
    uuid := [0x12, 0x3e, 0x45, 0x67, 0xe8, 0x9b, 0x12, 0xd3, 0xa4, 0x56, 0x42, 0x66, 0x14,
             0x17, 0x40, 0x00]
    alloc_task := true
    packet_create_args := fun _ _ => gearman_return_t.GEARMAN_SUCCESS }

/-- A universal structure without namespace and without error. -/
def universal_plain : gearman_universal_st :=
  { _namespace := none, error_rc := gearman_return_t.GEARMAN_SUCCESS, error_text := none }

/-- A universal structure with the namespace `X-`. -/
def universal_X : gearman_universal_st :=
  { _namespace := some (ascii "X-"), error_rc := gearman_return_t.GEARMAN_SUCCESS,
    error_text := none }

/-- A callback set. -/
def actions_default : gearman_actions_t := { id := 1 }

/-- Task storage obtained from `calloc`, every field zero. -/
def task_calloc : gearman_task_st :=
  { options_allocated := false, options_send_in_use := false, context := none,
    func := { id := 0 }, send := none }

/-- The blob of the burnin test: 2048 bytes `x`. -/
def burnin_blob : Bytes := List.replicate 2048 120

/-- An environment in which the packet builder fails with `GEARMAN_TOO_MANY_ARGS`. -/
def env_packet_fails : Env :=
  { env_ok with packet_create_args := fun _ _ => gearman_return_t.GEARMAN_TOO_MANY_ARGS }

/-- Three calls in a row: a submission that goes through, one with a workload of five
bytes behind a NULL pointer, and a reduce submission that goes through. -/
def calls_sample : List Call :=
  [Call.add_task env_ok none none gearman_command_t.GEARMAN_COMMAND_SUBMIT_JOB
     (cstring (ascii "f")) (cstring (ascii "u")) (cstring (ascii "w")) 0 actions_default,
   Call.add_task env_ok none none gearman_command_t.GEARMAN_COMMAND_SUBMIT_JOB
     (cstring (ascii "f")) (cstring (ascii "u")) { c_str := none, size := 5 } 0
     actions_default,
   Call.add_reducer_task env_ok gearman_command_t.GEARMAN_COMMAND_SUBMIT_REDUCE_JOB
     gearman_job_priority_t.GEARMAN_JOB_PRIORITY_NORMAL (cstring (ascii "f"))
     (cstring (ascii "r")) (cstring (ascii "u")) (cstring (ascii "w")) actions_default 0
     none]

/-! ## Lemmas on the workload check -/

theorem invalid_workload_iff (workload : gearman_string_t) :
    invalid_workload workload = true ↔ malformed_workload workload := by
  cases workload with
  | mk p n =>
    cases p <;> simp [invalid_workload, malformed_workload, gearman_size, gearman_c_str]

theorem finish_submit_not_rejected (env : Env) (client : gearman_client_st)
    (task : gearman_task_st) (command : gearman_command_t) (args : List arg_t) :
    ¬ rejected_invalid_argument (.ok (finish_submit env client task command args)) := by
  rintro ⟨c, hc, -, htext⟩
  unfold finish_submit at hc
  by_cases hrc : gearman_success (env.packet_create_args command args) = true
  · simp [hrc] at hc
  · simp [hrc] at hc
    rw [← hc] at htext
    simp [gearman_gerror] at htext

theorem add_task_invalid (env : Env) (client : gearman_client_st)
    (task : Option gearman_task_st) (context : Option Nat) (command : gearman_command_t)
    (function : gearman_string_t) (unique : gearman_unique_t) (workload : gearman_string_t)
    (when_ : Int) (actions : gearman_actions_t) (h : invalid_workload workload = true) :
    add_task env client task context command function unique workload when_ actions =
      .ok (none, { client with
        universal := gearman_error client.universal
          gearman_return_t.GEARMAN_INVALID_ARGUMENT "invalid workload" }) := by
  simp [add_task, h]

theorem add_reducer_task_invalid (env : Env) (client : gearman_client_st)
    (command : gearman_command_t) (priority : gearman_job_priority_t)
    (function reducer : gearman_string_t) (unique : gearman_unique_t)
    (workload : gearman_string_t) (actions : gearman_actions_t) (when_ : Int)
    (context : Option Nat) (h : invalid_workload workload = true) :
    add_reducer_task env client command priority function reducer unique workload actions
        when_ context =
      .ok (none, { client with
        universal := gearman_error client.universal
          gearman_return_t.GEARMAN_INVALID_ARGUMENT "invalid workload" }) := by
  simp [add_reducer_task, h]

theorem add_task_valid_not_rejected (env : Env) (client : gearman_client_st)
    (task : Option gearman_task_st) (context : Option Nat) (command : gearman_command_t)
    (function : gearman_string_t) (unique : gearman_unique_t) (workload : gearman_string_t)
    (when_ : Int) (actions : gearman_actions_t) (h : invalid_workload workload = false) :
    ¬ rejected_invalid_argument
        (add_task env client task context command function unique workload when_ actions) := by
  intro hr
  simp only [add_task, h] at hr
  cases hcreate : gearman_task_internal_create env client task with
  | none =>
    rw [hcreate] at hr
    obtain ⟨c, hc, hrc, -⟩ := hr
    simp at hc
    rw [← hc] at hrc
    simp [gearman_error] at hrc
  | some tc =>
    rw [hcreate] at hr
    simp only [Bool.false_eq_true, if_false] at hr
    split at hr
    · obtain ⟨c, hc, -⟩ := hr
      simp at hc
    · exact finish_submit_not_rejected _ _ _ _ _ hr

theorem add_reducer_task_valid_not_rejected (env : Env) (client : gearman_client_st)
    (command : gearman_command_t) (priority : gearman_job_priority_t)
    (function reducer : gearman_string_t) (unique : gearman_unique_t)
    (workload : gearman_string_t) (actions : gearman_actions_t) (when_ : Int)
    (context : Option Nat) (h : invalid_workload workload = false) :
    ¬ rejected_invalid_argument
        (add_reducer_task env client command priority function reducer unique workload
          actions when_ context) := by
  intro hr
  simp only [add_reducer_task, h] at hr
  cases hcreate : gearman_task_internal_create env client none with
  | none =>
    rw [hcreate] at hr
    obtain ⟨c, hc, hrc, -⟩ := hr
    simp at hc
    rw [← hc] at hrc
    simp [gearman_error] at hrc
  | some tc =>
    rw [hcreate] at hr
    simp only [Bool.false_eq_true, if_false] at hr
    split at hr
    · obtain ⟨c, hc, -⟩ := hr
      simp at hc
    · exact finish_submit_not_rejected _ _ _ _ _ hr

/-! ## Input validation -/

/-- C1: for every client and every workload, `add_task` and `add_reducer_task` turn the
submission down at the workload check (no task returned, `GEARMAN_INVALID_ARGUMENT`
recorded on the client with the message of that check) exactly when the workload has
zero length with non-null backing or non-zero length with null backing; every other
workload gets past the check. -/
theorem workload_check_rejects_iff_malformed (env : Env) (client : gearman_client_st)
    (task : Option gearman_task_st) (context : Option Nat) (command : gearman_command_t)
    (priority : gearman_job_priority_t) (function reducer : gearman_string_t)
    (unique : gearman_unique_t) (workload : gearman_string_t) (when_ : Int)
    (actions : gearman_actions_t) :
    (rejected_invalid_argument
        (add_task env client task context command function unique workload when_ actions)
      ↔ malformed_workload workload) ∧
    (rejected_invalid_argument
        (add_reducer_task env client command priority function reducer unique workload
          actions when_ context)
      ↔ malformed_workload workload) := by
  rw [← invalid_workload_iff]
  constructor
  · constructor
    · intro hr
      by_contra hv
      exact add_task_valid_not_rejected env client task context command function unique
        workload when_ actions (by simpa using hv) hr
    · intro hv
      rw [add_task_invalid env client task context command function unique workload when_
        actions hv]
      exact ⟨_, rfl, rfl, rfl⟩
  · constructor
    · intro hr
      by_contra hv
      exact add_reducer_task_valid_not_rejected env client command priority function
        reducer unique workload actions when_ context (by simpa using hv) hr
    · intro hv
      rw [add_reducer_task_invalid env client command priority function reducer unique
        workload actions when_ context hv]
      exact ⟨_, rfl, rfl, rfl⟩

/-- C2: when `add_task` or `add_reducer_task` turns a submission down with
`GEARMAN_INVALID_ARGUMENT`, no task is returned and `new_tasks`, `running_tasks`,
`task_count` and the task list of the client are what they were before the call. -/
theorem rejection_keeps_bookkeeping (env : Env) (client : gearman_client_st)
    (task : Option gearman_task_st) (context : Option Nat) (command : gearman_command_t)
    (priority : gearman_job_priority_t) (function reducer : gearman_string_t)
    (unique : gearman_unique_t) (workload : gearman_string_t) (when_ : Int)
    (actions : gearman_actions_t) :
    (rejected_invalid_argument
        (add_task env client task context command function unique workload when_ actions) →
      ∃ c : gearman_client_st,
        add_task env client task context command function unique workload when_ actions
          = .ok (none, c) ∧
        c.new_tasks = client.new_tasks ∧ c.running_tasks = client.running_tasks ∧
        c.task_count = client.task_count ∧ c.task_list = client.task_list) ∧
    (rejected_invalid_argument
        (add_reducer_task env client command priority function reducer unique workload
          actions when_ context) →
      ∃ c : gearman_client_st,
        add_reducer_task env client command priority function reducer unique workload
          actions when_ context = .ok (none, c) ∧
        c.new_tasks = client.new_tasks ∧ c.running_tasks = client.running_tasks ∧
        c.task_count = client.task_count ∧ c.task_list = client.task_list) := by
  constructor
  · intro hr
    have hv : invalid_workload workload = true := by
      by_contra hv
      exact add_task_valid_not_rejected env client task context command function unique
        workload when_ actions (by simpa using hv) hr
    rw [add_task_invalid env client task context command function unique workload when_
      actions hv]
    exact ⟨_, rfl, rfl, rfl, rfl, rfl⟩
  · intro hr
    have hv : invalid_workload workload = true := by
      by_contra hv
      exact add_reducer_task_valid_not_rejected env client command priority function
        reducer unique workload actions when_ context (by simpa using hv) hr
    rw [add_reducer_task_invalid env client command priority function reducer unique
      workload actions when_ context hv]
    exact ⟨_, rfl, rfl, rfl, rfl, rfl⟩

/-- C2 at a workload of five bytes behind a NULL pointer, for `add_task`. -/
theorem rejection_keeps_bookkeeping_witness :
    rejected_invalid_argument
        (add_task env_ok (Client_new universal_plain) none none
          gearman_command_t.GEARMAN_COMMAND_SUBMIT_JOB (cstring (ascii "f"))
          (cstring (ascii "u")) { c_str := none, size := 5 } 0 actions_default) ∧
      ∃ c : gearman_client_st,
        add_task env_ok (Client_new universal_plain) none none
          gearman_command_t.GEARMAN_COMMAND_SUBMIT_JOB (cstring (ascii "f"))
          (cstring (ascii "u")) { c_str := none, size := 5 } 0 actions_default
          = .ok (none, c) ∧
        c.new_tasks = (Client_new universal_plain).new_tasks ∧
        c.running_tasks = (Client_new universal_plain).running_tasks ∧
        c.task_count = (Client_new universal_plain).task_count ∧
        c.task_list = (Client_new universal_plain).task_list :=
  ⟨⟨_, rfl, rfl, rfl⟩,
   (rejection_keeps_bookkeeping env_ok (Client_new universal_plain) none none
      gearman_command_t.GEARMAN_COMMAND_SUBMIT_JOB
      gearman_job_priority_t.GEARMAN_JOB_PRIORITY_NORMAL (cstring (ascii "f"))
      (cstring (ascii "r")) (cstring (ascii "u")) { c_str := none, size := 5 } 0
      actions_default).1 ⟨_, rfl, rfl, rfl⟩⟩

/-! ## Names and the namespace -/

theorem take_stored (s rest : Bytes) : (s ++ 0 :: rest).take (s.length + 1) = s ++ [0] := by
  rw [List.take_append_eq_append_take]
  simp

theorem name_arg_stored (ns : Option Bytes) (s rest : Bytes) (h : fits_buffer ns s) :
    ∃ a : arg_t, name_arg ns (stored s rest) = .ok a ∧
      arg_bytes a = some (namespaced ns s ++ [0]) ∧
      a.size = (namespaced ns s).length + 1 := by
  cases ns with
  | none =>
    refine ⟨{ ptr := some (s ++ 0 :: rest), size := s.length + 1 }, rfl, ?_, rfl⟩
    simp [arg_bytes, namespaced, take_stored]
  | some n =>
    have hfit : n.length + s.length + 1 ≤ 1024 := h n rfl
    refine ⟨{ ptr := some (n ++ (s ++ [0])), size := n.length + s.length + 1 }, ?_, ?_, ?_⟩
    · have h1 : ¬ (1024 < n.length) := by omega
      have h2 : ¬ (1024 < n.length + (s.length + 1)) := by omega
      simp [name_arg, memcpy, stored, gearman_c_str, gearman_size, take_stored, h1, h2]
    · simp [arg_bytes, namespaced]
      omega
    · simp [namespaced]

theorem assertions_pass_cases (ndebug : Bool) (command : gearman_command_t)
    (workload : gearman_string_t) (h : assertions_pass ndebug command workload) :
    (!ndebug && !(decide (command = gearman_command_t.GEARMAN_COMMAND_SUBMIT_REDUCE_JOB) ||
        decide (command = gearman_command_t.GEARMAN_COMMAND_SUBMIT_REDUCE_JOB_BACKGROUND)))
      = false ∧
    (!ndebug && (gearman_c_str workload).isNone) = false ∧
    (!ndebug && gearman_size workload == 0) = false := by
  rcases h with h | ⟨hc, hp, hs⟩
  · simp [h]
  · cases workload with
    | mk p n =>
      cases p with
      | none => exact absurd rfl hp
      | some m =>
        have hn : n ≠ 0 := hs
        rcases hc with hc | hc <;> simp [hc, gearman_c_str, gearman_size, hn]

/-- C3: with namespace `N` the first argument `add_task` and `add_reducer_task` build
for a function name `f` is `N || f` and one NUL, of length `|N| + |f| + 1`, and the third
argument of `add_reducer_task` is `N || reducer` and one NUL; without a namespace the
arguments are `f` and `reducer` followed by one NUL.  The names are held in
NUL-terminated storage and, with a namespace, fit the buffer of 1024 bytes. -/
theorem name_arguments_namespaced (ndebug : Bool) (ns : Option Bytes) (uuid : Bytes)
    (command : gearman_command_t) (f restf r restr : Bytes) (unique : gearman_unique_t)
    (workload : gearman_string_t) (when_ : Int) (hf : fits_buffer ns f) :
    (∃ (a0 : arg_t) (tail : List arg_t),
        add_task_args ns uuid command (stored f restf) unique workload when_
          = .ok (a0 :: tail) ∧
        arg_bytes a0 = some (namespaced ns f ++ [0]) ∧
        a0.size = (namespaced ns f).length + 1) ∧
    (fits_buffer ns r → assertions_pass ndebug command workload →
      ∃ a0 a1 a2 a3 a4 : arg_t,
        add_reducer_task_args ndebug ns uuid command (stored f restf) (stored r restr)
          unique workload = .ok [a0, a1, a2, a3, a4] ∧
        arg_bytes a0 = some (namespaced ns f ++ [0]) ∧
        a0.size = (namespaced ns f).length + 1 ∧
        arg_bytes a2 = some (namespaced ns r ++ [0]) ∧
        a2.size = (namespaced ns r).length + 1) := by
  obtain ⟨a0, h0, hb0, hs0⟩ := name_arg_stored ns f restf hf
  constructor
  · by_cases hcmd : command = gearman_command_t.GEARMAN_COMMAND_SUBMIT_JOB_EPOCH
    · refine ⟨a0, [unique_arg uuid unique, epoch_arg when_,
        { ptr := gearman_c_str workload, size := gearman_size workload }], ?_, hb0, hs0⟩
      simp only [add_task_args, h0, hcmd, if_true]
    · refine ⟨a0, [unique_arg uuid unique,
        { ptr := gearman_c_str workload, size := gearman_size workload }], ?_, hb0, hs0⟩
      simp only [add_task_args, h0, hcmd, if_false]
  · intro hr hassert
    obtain ⟨a2, h2, hb2, hs2⟩ := name_arg_stored ns r restr hr
    obtain ⟨hA, hB, hC⟩ := assertions_pass_cases ndebug command workload hassert
    refine ⟨a0, unique_arg uuid unique, a2, { ptr := some [0], size := 1 },
      { ptr := gearman_c_str workload, size := gearman_size workload }, ?_, hb0, hs0, hb2,
      hs2⟩
    simp only [add_reducer_task_args, h0, h2, hA, hB, hC, Bool.false_eq_true, if_false]

/-- C3 at the namespace `X-`, the function `f` and the reducer `r`: the first argument
is `X-f` and a NUL, and the third argument of a reduce submission is `X-r` and a NUL. -/
theorem name_arguments_namespaced_witness :
    fits_buffer (some (ascii "X-")) (ascii "f") ∧
    (∃ (a0 : arg_t) (tail : List arg_t),
        add_task_args (some (ascii "X-")) env_ok.uuid
          gearman_command_t.GEARMAN_COMMAND_SUBMIT_JOB (stored (ascii "f") [])
          (cstring (ascii "u")) (cstring (ascii "w")) 0 = .ok (a0 :: tail) ∧
        arg_bytes a0 = some [88, 45, 102, 0] ∧ a0.size = 4) ∧
    (∃ a0 a1 a2 a3 a4 : arg_t,
        add_reducer_task_args false (some (ascii "X-")) env_ok.uuid
          gearman_command_t.GEARMAN_COMMAND_SUBMIT_REDUCE_JOB (stored (ascii "f") [])
          (stored (ascii "r") []) (cstring (ascii "u")) (cstring (ascii "w"))
          = .ok [a0, a1, a2, a3, a4] ∧
        arg_bytes a0 = some [88, 45, 102, 0] ∧ a0.size = 4 ∧
        arg_bytes a2 = some [88, 45, 114, 0] ∧ a2.size = 4) :=
  have hfit : ∀ name : Bytes, name.length = 1 → fits_buffer (some (ascii "X-")) name := by
    intro name hname n hn
    cases hn
    rw [hname]
    decide
  have h := name_arguments_namespaced false (some (ascii "X-")) env_ok.uuid
    gearman_command_t.GEARMAN_COMMAND_SUBMIT_REDUCE_JOB (ascii "f") [] (ascii "r") []
    (cstring (ascii "u")) (cstring (ascii "w")) 0 (hfit _ rfl)
  have h' := name_arguments_namespaced false (some (ascii "X-")) env_ok.uuid
    gearman_command_t.GEARMAN_COMMAND_SUBMIT_JOB (ascii "f") [] (ascii "r") []
    (cstring (ascii "u")) (cstring (ascii "w")) 0 (hfit _ rfl)
  ⟨hfit _ rfl, h'.1,
   h.2 (hfit _ rfl) (Or.inr ⟨Or.inl rfl, by decide, by decide⟩)⟩

/-! ## The unique id -/

theorem unique_arg_stored (uuid u restu : Bytes) (hu : u ≠ []) :
    unique_arg uuid (stored u restu)
        = { ptr := some (u ++ 0 :: restu), size := u.length + 1 } ∧
      arg_bytes (unique_arg uuid (stored u restu)) = some (u ++ [0]) := by
  have hlen : u.length ≠ 0 := by
    intro h
    exact hu (List.length_eq_zero.mp h)
  have h1 : unique_arg uuid (stored u restu)
      = { ptr := some (u ++ 0 :: restu), size := u.length + 1 } := by
    simp [unique_arg, stored, gearman_size, gearman_c_str, hlen]
  refine ⟨h1, ?_⟩
  rw [h1]
  simp [arg_bytes, take_stored]

theorem add_task_args_cons (ns : Option Bytes) (uuid : Bytes) (command : gearman_command_t)
    (function : gearman_string_t) (unique : gearman_unique_t) (workload : gearman_string_t)
    (when_ : Int) (a0 : arg_t) (h0 : name_arg ns function = .ok a0) :
    ∃ tail : List arg_t,
      add_task_args ns uuid command function unique workload when_
        = .ok (a0 :: unique_arg uuid unique :: tail) := by
  by_cases hcmd : command = gearman_command_t.GEARMAN_COMMAND_SUBMIT_JOB_EPOCH
  · exact ⟨[epoch_arg when_, { ptr := gearman_c_str workload, size := gearman_size workload }],
      by simp only [add_task_args, h0, hcmd, if_true]⟩
  · exact ⟨[{ ptr := gearman_c_str workload, size := gearman_size workload }],
      by simp only [add_task_args, h0, hcmd, if_false]⟩

theorem add_reducer_task_args_eq (ndebug : Bool) (ns : Option Bytes) (uuid : Bytes)
    (command : gearman_command_t) (function reducer : gearman_string_t)
    (unique : gearman_unique_t) (workload : gearman_string_t) (a0 a2 : arg_t)
    (h0 : name_arg ns function = .ok a0) (h2 : name_arg ns reducer = .ok a2)
    (hassert : assertions_pass ndebug command workload) :
    add_reducer_task_args ndebug ns uuid command function reducer unique workload
      = .ok [a0, unique_arg uuid unique, a2, { ptr := some [0], size := 1 },
             { ptr := gearman_c_str workload, size := gearman_size workload }] := by
  obtain ⟨hA, hB, hC⟩ := assertions_pass_cases ndebug command workload hassert
  simp only [add_reducer_task_args, h0, h2, hA, hB, hC, Bool.false_eq_true, if_false]

/-- C4: for a non-empty unique id `u` supplied by the caller, the second argument built
by `add_task` and by `add_reducer_task` is `u` followed by one NUL, whatever the
namespace: the unique id is used as it is and never gets the namespace in front.  The
id is held in NUL-terminated storage; `a0` and `a2` are the arguments built for the
function and the reducer. -/
theorem unique_argument_verbatim (ndebug : Bool) (ns : Option Bytes) (uuid : Bytes)
    (command : gearman_command_t) (function reducer : gearman_string_t) (u restu : Bytes)
    (workload : gearman_string_t) (when_ : Int) (a0 : arg_t) (hu : u ≠ [])
    (h0 : name_arg ns function = .ok a0) :
    (∃ (a1 : arg_t) (tail : List arg_t),
        add_task_args ns uuid command function (stored u restu) workload when_
          = .ok (a0 :: a1 :: tail) ∧
        arg_bytes a1 = some (u ++ [0]) ∧ a1.size = u.length + 1) ∧
    (∀ a2 : arg_t, name_arg ns reducer = .ok a2 → assertions_pass ndebug command workload →
      ∃ (a1 : arg_t) (tail : List arg_t),
        add_reducer_task_args ndebug ns uuid command function reducer (stored u restu)
          workload = .ok (a0 :: a1 :: tail) ∧
        arg_bytes a1 = some (u ++ [0]) ∧ a1.size = u.length + 1) := by
  obtain ⟨hua, hub⟩ := unique_arg_stored uuid u restu hu
  constructor
  · obtain ⟨tail, ht⟩ := add_task_args_cons ns uuid command function (stored u restu)
      workload when_ a0 h0
    exact ⟨unique_arg uuid (stored u restu), tail, ht, hub, by rw [hua]⟩
  · intro a2 h2 hassert
    exact ⟨unique_arg uuid (stored u restu), _,
      add_reducer_task_args_eq ndebug ns uuid command function reducer (stored u restu)
        workload a0 a2 h0 h2 hassert, hub, by rw [hua]⟩

/-- C4 at the namespace `X-`, the function `f` and the unique id `u`: the second
argument is `u` and a NUL. -/
theorem unique_argument_verbatim_witness :
    ascii "u" ≠ [] ∧
    name_arg (some (ascii "X-")) (cstring (ascii "f"))
      = .ok { ptr := some [88, 45, 102, 0], size := 4 } ∧
    (∃ (a1 : arg_t) (tail : List arg_t),
        add_task_args (some (ascii "X-")) env_ok.uuid
          gearman_command_t.GEARMAN_COMMAND_SUBMIT_JOB (cstring (ascii "f"))
          (stored (ascii "u") []) (cstring (ascii "w")) 0
          = .ok ({ ptr := some [88, 45, 102, 0], size := 4 } :: a1 :: tail) ∧
        arg_bytes a1 = some [117, 0] ∧ a1.size = 2) :=
  ⟨by decide, rfl,
   (unique_argument_verbatim false (some (ascii "X-")) env_ok.uuid
      gearman_command_t.GEARMAN_COMMAND_SUBMIT_JOB (cstring (ascii "f"))
      (cstring (ascii "r")) (ascii "u") [] (cstring (ascii "w")) 0
      { ptr := some [88, 45, 102, 0], size := 4 } (by decide) rfl).1⟩

/-! ## A submission that goes through -/

theorem add_task_ok (env : Env) (client : gearman_client_st) (task : Option gearman_task_st)
    (context : Option Nat) (command : gearman_command_t) (function : gearman_string_t)
    (unique : gearman_unique_t) (workload : gearman_string_t) (when_ : Int)
    (actions : gearman_actions_t) (args : List arg_t)
    (hv : invalid_workload workload = false)
    (hc : task ≠ none ∨ env.alloc_task = true)
    (ha : add_task_args client.universal._namespace env.uuid command function unique
      workload when_ = .ok args)
    (hp : env.packet_create_args command args = gearman_return_t.GEARMAN_SUCCESS) :
    ∃ (t : gearman_task_st) (c : gearman_client_st),
      add_task env client task context command function unique workload when_ actions
        = .ok (some t, c) ∧
      t.send = some { magic := gearman_magic_t.GEARMAN_MAGIC_REQUEST, command := command,
                      args := args } ∧
      t.options_send_in_use = true ∧ t.context = context ∧ t.func = actions ∧
      c.new_tasks = uint32_incr client.new_tasks ∧
      c.running_tasks = uint32_incr client.running_tasks ∧
      c.task_count = uint32_incr client.task_count ∧
      c.task_list = t :: client.task_list ∧
      c.universal = client.universal := by
  cases task with
  | some t0 =>
    simp [add_task, hv, gearman_task_internal_create, ha, finish_submit, hp, gearman_success]
    exact ⟨_, _, ⟨rfl, rfl⟩, rfl, rfl, rfl, rfl, rfl, rfl, rfl, rfl, rfl⟩
  | none =>
    have halloc : env.alloc_task = true := by
      rcases hc with hc | hc
      · exact absurd rfl hc
      · exact hc
    simp [add_task, hv, gearman_task_internal_create, halloc, ha, finish_submit, hp,
      gearman_success]
    exact ⟨_, _, ⟨rfl, rfl⟩, rfl, rfl, rfl, rfl, rfl, rfl, rfl, rfl, rfl⟩

theorem add_reducer_task_ok (env : Env) (client : gearman_client_st)
    (command : gearman_command_t) (priority : gearman_job_priority_t)
    (function reducer : gearman_string_t) (unique : gearman_unique_t)
    (workload : gearman_string_t) (actions : gearman_actions_t) (when_ : Int)
    (context : Option Nat) (args : List arg_t)
    (hv : invalid_workload workload = false)
    (hc : env.alloc_task = true)
    (ha : add_reducer_task_args env.NDEBUG client.universal._namespace env.uuid command
      function reducer unique workload = .ok args)
    (hp : env.packet_create_args command args = gearman_return_t.GEARMAN_SUCCESS) :
    ∃ (t : gearman_task_st) (c : gearman_client_st),
      add_reducer_task env client command priority function reducer unique workload actions
        when_ context = .ok (some t, c) ∧
      t.send = some { magic := gearman_magic_t.GEARMAN_MAGIC_REQUEST, command := command,
                      args := args } ∧
      t.options_send_in_use = true ∧ t.context = context ∧ t.func = actions ∧
      c.new_tasks = uint32_incr client.new_tasks ∧
      c.running_tasks = uint32_incr client.running_tasks ∧
      c.task_count = uint32_incr client.task_count ∧
      c.task_list = t :: client.task_list ∧
      c.universal = client.universal := by
  simp [add_reducer_task, hv, gearman_task_internal_create, hc, ha, finish_submit, hp,
    gearman_success]
  exact ⟨_, _, ⟨rfl, rfl⟩, rfl, rfl, rfl, rfl, rfl, rfl, rfl, rfl, rfl⟩

theorem nul_offset_stored (s rest : Bytes) (hs : 0 ∉ s) :
    nul_offset (s ++ 0 :: rest) = some s.length := by
  induction s with
  | nil => simp [nul_offset]
  | cons b m ih =>
    have hb : b ≠ 0 := by
      intro h
      exact hs (by simp [h])
    have hm : 0 ∉ m := by
      intro h
      exact hs (by simp [h])
    simp [nul_offset, hb, ih hm]

theorem gearman_string_param_cstr_stored (s rest : Bytes) (hs : 0 ∉ s) :
    gearman_string_param_cstr (some (s ++ 0 :: rest)) = .ok (stored s rest) := by
  simp [gearman_string_param_cstr, strlen, nul_offset_stored s rest hs, stored]

theorem add_task_cstr_some (env : Env) (client : gearman_client_st)
    (task : Option gearman_task_st) (context : Option Nat) (command : gearman_command_t)
    (function_name unique workload_str : Ptr) (workload_size : Nat) (when_ : Int)
    (ret_ptr : Option gearman_return_t) (actions : gearman_actions_t)
    (function : gearman_string_t) (unique_size : Nat) (t : gearman_task_st)
    (c1 : gearman_client_st)
    (hf : gearman_string_param_cstr function_name = .ok function)
    (hn : (if unique.isSome then strlen unique else .ok 0) = .ok unique_size)
    (h : add_task env client task context command function
        (gearman_unique_make unique unique_size)
        { c_str := workload_str, size := workload_size } when_ actions = .ok (some t, c1)) :
    add_task_cstr env (some client) task context command function_name unique workload_str
        workload_size when_ ret_ptr actions
      = .ok { task := some t, client := some c1,
              ret := ret_ptr.map (fun _ => gearman_return_t.GEARMAN_SUCCESS),
              errno := none } := by
  simp only [add_task_cstr, hf, hn, h]

theorem uuid_unparse_length (uu : Bytes) : (uuid_unparse uu).length = 36 := by
  simp [uuid_unparse, hex_byte]

theorem is_hex_hex_digit (n : Nat) : is_hex (hex_digit n) = true := by
  have h := Nat.mod_lt n (show 0 < 16 by decide)
  unfold hex_digit is_hex
  split <;> simp <;> omega

theorem range_36 : List.range 36 = [0, 1, 2, 3, 4, 5, 6, 7, 8, 9, 10, 11, 12, 13, 14, 15, 16,
    17, 18, 19, 20, 21, 22, 23, 24, 25, 26, 27, 28, 29, 30, 31, 32, 33, 34, 35] := by
  decide

theorem uuid_unparse_canonical (uu : Bytes) : uuid_canonical (uuid_unparse uu) = true := by
  unfold uuid_canonical
  rw [uuid_unparse_length, range_36]
  simp [uuid_unparse, hex_byte, is_hex_hex_digit]

theorem unique_arg_generated (uuid : Bytes) (unique : gearman_unique_t)
    (hu : unique.size = 0) :
    arg_bytes (unique_arg uuid unique) = some (uuid_unparse uuid ++ [0]) ∧
      (unique_arg uuid unique).size = 37 := by
  have hlen := uuid_unparse_length uuid
  have hset : (uuid_unparse uuid ++ [0]).set 36 0 = uuid_unparse uuid ++ [0] := by
    apply List.ext_getElem
    · simp
    · intro i h1 h2
      rw [List.getElem_set]
      split
      · next h36 =>
        subst h36
        rw [List.getElem_append_right (by omega)]
        simp [hlen]
      · rfl
  have h1 : unique_arg uuid unique
      = { ptr := some (uuid_unparse uuid ++ [0]), size := 37 } := by
    simp [unique_arg, gearman_size, hu, hset]
  rw [h1]
  simp [arg_bytes, hlen]

/-- C5, as the code has it: `add_task` and `add_reducer_task` make no length check on a
unique id supplied by the caller.  For every non-empty unique id `u`, however long, a
submission that gets its task and its packet returns the task, and the second argument
of the packet is `u` followed by one NUL, of `|u| + 1` bytes. -/
theorem unique_length_unchecked (env : Env) (client : gearman_client_st)
    (task : Option gearman_task_st) (context : Option Nat) (command : gearman_command_t)
    (priority : gearman_job_priority_t) (function reducer : gearman_string_t)
    (u restu : Bytes) (workload : gearman_string_t) (when_ : Int)
    (actions : gearman_actions_t) (a0 : arg_t)
    (hu : u ≠ [])
    (hv : invalid_workload workload = false)
    (hc : env.alloc_task = true)
    (h0 : name_arg client.universal._namespace function = .ok a0)
    (hp : ∀ args : List arg_t,
      env.packet_create_args command args = gearman_return_t.GEARMAN_SUCCESS) :
    (∃ (t : gearman_task_st) (c : gearman_client_st) (a1 : arg_t) (tail : List arg_t),
        add_task env client task context command function (stored u restu) workload when_
          actions = .ok (some t, c) ∧
        t.send = some { magic := gearman_magic_t.GEARMAN_MAGIC_REQUEST, command := command,
                        args := a0 :: a1 :: tail } ∧
        arg_bytes a1 = some (u ++ [0]) ∧ a1.size = u.length + 1) ∧
    (∀ a2 : arg_t, name_arg client.universal._namespace reducer = .ok a2 →
      assertions_pass env.NDEBUG command workload →
      ∃ (t : gearman_task_st) (c : gearman_client_st) (a1 : arg_t) (tail : List arg_t),
        add_reducer_task env client command priority function reducer (stored u restu)
          workload actions when_ context = .ok (some t, c) ∧
        t.send = some { magic := gearman_magic_t.GEARMAN_MAGIC_REQUEST, command := command,
                        args := a0 :: a1 :: tail } ∧
        arg_bytes a1 = some (u ++ [0]) ∧ a1.size = u.length + 1) := by
  obtain ⟨hua, hub⟩ := unique_arg_stored env.uuid u restu hu
  constructor
  · obtain ⟨tail, ht⟩ := add_task_args_cons client.universal._namespace env.uuid command
      function (stored u restu) workload when_ a0 h0
    obtain ⟨t, c, hr, hsend, -⟩ := add_task_ok env client task context command function
      (stored u restu) workload when_ actions _ hv (Or.inr hc) ht (hp _)
    exact ⟨t, c, unique_arg env.uuid (stored u restu), tail, hr, hsend, hub, by rw [hua]⟩
  · intro a2 h2 hassert
    have ha := add_reducer_task_args_eq env.NDEBUG client.universal._namespace env.uuid
      command function reducer (stored u restu) workload a0 a2 h0 h2 hassert
    obtain ⟨t, c, hr, hsend, -⟩ := add_reducer_task_ok env client command priority function
      reducer (stored u restu) workload actions when_ context _ hv hc ha (hp _)
    exact ⟨t, c, unique_arg env.uuid (stored u restu), _, hr, hsend, hub, by rw [hua]⟩

/-- C5 at a unique id of 100 bytes. -/
theorem unique_length_unchecked_witness :
    List.replicate 100 120 ≠ [] ∧
    invalid_workload (cstring (ascii "w")) = false ∧
    env_ok.alloc_task = true ∧
    name_arg (Client_new universal_plain).universal._namespace (cstring (ascii "f"))
      = .ok { ptr := some [102, 0], size := 2 } ∧
    (∃ (t : gearman_task_st) (c : gearman_client_st) (a1 : arg_t) (tail : List arg_t),
        add_task env_ok (Client_new universal_plain) none none
          gearman_command_t.GEARMAN_COMMAND_SUBMIT_JOB (cstring (ascii "f"))
          (stored (List.replicate 100 120) []) (cstring (ascii "w")) 0 actions_default
          = .ok (some t, c) ∧
        t.send = some { magic := gearman_magic_t.GEARMAN_MAGIC_REQUEST,
                        command := gearman_command_t.GEARMAN_COMMAND_SUBMIT_JOB,
                        args := { ptr := some [102, 0], size := 2 } :: a1 :: tail } ∧
        arg_bytes a1 = some (List.replicate 100 120 ++ [0]) ∧
        a1.size = (List.replicate 100 120).length + 1) :=
  ⟨by decide, by decide, rfl, rfl,
   (unique_length_unchecked env_ok (Client_new universal_plain) none none
      gearman_command_t.GEARMAN_COMMAND_SUBMIT_JOB
      gearman_job_priority_t.GEARMAN_JOB_PRIORITY_NORMAL (cstring (ascii "f"))
      (cstring (ascii "r")) (List.replicate 100 120) [] (cstring (ascii "w")) 0
      actions_default { ptr := some [102, 0], size := 2 } (by decide) (by decide) rfl rfl
      (fun _ => rfl)).1⟩

/-- C5 fails as stated: a unique id of 65 bytes is not turned down.  `add_task` returns
a task whose packet carries the 65 bytes and a NUL as its second argument. -/
theorem unique_of_65_bytes_is_submitted :
    ∃ (t : gearman_task_st) (c : gearman_client_st) (a0 a1 a2 : arg_t),
      add_task env_ok (Client_new universal_plain) none none
        gearman_command_t.GEARMAN_COMMAND_SUBMIT_JOB (cstring (ascii "f"))
        (cstring (List.replicate 65 97)) (cstring (ascii "w")) 0 actions_default
        = .ok (some t, c) ∧
      t.send = some { magic := gearman_magic_t.GEARMAN_MAGIC_REQUEST,
                      command := gearman_command_t.GEARMAN_COMMAND_SUBMIT_JOB,
                      args := [a0, a1, a2] } ∧
      arg_bytes a1 = some (List.replicate 65 97 ++ [0]) ∧
      64 < (List.replicate 65 97).length :=
  ⟨_, _, _, _, _, rfl, rfl, by decide, by decide⟩

/-- C6: when the caller supplies no unique id (a unique byte string of size zero, or a
NULL `unique` pointer in the overload taking C strings), the unique-id argument built by
`add_task` and `add_reducer_task` is the 36 bytes of the canonical text of the generated
UUID followed by one NUL, 37 bytes in all, whatever the function, the workload and the
namespace are.  `a0` and `a2` are the arguments built for the function and the
reducer. -/
theorem generated_unique_argument (env : Env) (ns : Option Bytes)
    (command : gearman_command_t) (function reducer : gearman_string_t)
    (unique : gearman_unique_t) (workload : gearman_string_t) (when_ : Int) (a0 : arg_t)
    (hu : unique.size = 0) (h0 : name_arg ns function = .ok a0) :
    (uuid_unparse env.uuid).length = 36 ∧ uuid_canonical (uuid_unparse env.uuid) = true ∧
    (∃ (a1 : arg_t) (tail : List arg_t),
        add_task_args ns env.uuid command function unique workload when_
          = .ok (a0 :: a1 :: tail) ∧
        arg_bytes a1 = some (uuid_unparse env.uuid ++ [0]) ∧ a1.size = 37) ∧
    (∀ a2 : arg_t, name_arg ns reducer = .ok a2 →
      assertions_pass env.NDEBUG command workload →
      ∃ (a1 : arg_t) (tail : List arg_t),
        add_reducer_task_args env.NDEBUG ns env.uuid command function reducer unique
          workload = .ok (a0 :: a1 :: tail) ∧
        arg_bytes a1 = some (uuid_unparse env.uuid ++ [0]) ∧ a1.size = 37) ∧
    (∀ (client : gearman_client_st) (task : Option gearman_task_st) (context : Option Nat)
        (function_name : Ptr) (ret_ptr : Option gearman_return_t)
        (actions : gearman_actions_t),
      client.universal._namespace = ns →
      gearman_string_param_cstr function_name = .ok function →
      invalid_workload workload = false →
      (task ≠ none ∨ env.alloc_task = true) →
      (∀ args : List arg_t,
        env.packet_create_args command args = gearman_return_t.GEARMAN_SUCCESS) →
      ∃ (r : Returned) (t : gearman_task_st) (a1 : arg_t) (tail : List arg_t),
        add_task_cstr env (some client) task context command function_name none
          workload.c_str workload.size when_ ret_ptr actions = .ok r ∧
        r.task = some t ∧
        t.send = some { magic := gearman_magic_t.GEARMAN_MAGIC_REQUEST, command := command,
                        args := a0 :: a1 :: tail } ∧
        arg_bytes a1 = some (uuid_unparse env.uuid ++ [0]) ∧ a1.size = 37) := by
  obtain ⟨hgb, hgs⟩ := unique_arg_generated env.uuid unique hu
  refine ⟨uuid_unparse_length env.uuid, uuid_unparse_canonical env.uuid, ?_, ?_, ?_⟩
  · obtain ⟨tail, ht⟩ := add_task_args_cons ns env.uuid command function unique workload
      when_ a0 h0
    exact ⟨unique_arg env.uuid unique, tail, ht, hgb, hgs⟩
  · intro a2 h2 hassert
    exact ⟨unique_arg env.uuid unique, _,
      add_reducer_task_args_eq env.NDEBUG ns env.uuid command function reducer unique
        workload a0 a2 h0 h2 hassert, hgb, hgs⟩
  · intro client task context function_name ret_ptr actions hns hfn hv hc hp
    obtain ⟨hnb, hnsz⟩ := unique_arg_generated env.uuid (gearman_unique_make none 0) rfl
    obtain ⟨tail, ht⟩ := add_task_args_cons client.universal._namespace env.uuid command
      function (gearman_unique_make none 0) workload when_ a0 (by rw [hns]; exact h0)
    obtain ⟨t, c, hr, hsend, -⟩ := add_task_ok env client task context command function
      (gearman_unique_make none 0) workload when_ actions _ hv hc ht (hp _)
    refine ⟨_, t, unique_arg env.uuid (gearman_unique_make none 0), tail,
      add_task_cstr_some env client task context command function_name none workload.c_str
        workload.size when_ ret_ptr actions function 0 t c hfn rfl hr, rfl, hsend, hnb,
      hnsz⟩

/-- C6 at the namespace `X-`, the function `f` and an empty unique id. -/
theorem generated_unique_argument_witness :
    (cstring []).size = 0 ∧
    name_arg (some (ascii "X-")) (cstring (ascii "f"))
      = .ok { ptr := some [88, 45, 102, 0], size := 4 } ∧
    (∃ (a1 : arg_t) (tail : List arg_t),
        add_task_args (some (ascii "X-")) env_ok.uuid
          gearman_command_t.GEARMAN_COMMAND_SUBMIT_JOB (cstring (ascii "f")) (cstring [])
          (cstring (ascii "w")) 0
          = .ok ({ ptr := some [88, 45, 102, 0], size := 4 } :: a1 :: tail) ∧
        arg_bytes a1 = some (ascii "123e4567-e89b-12d3-a456-426614174000" ++ [0]) ∧
        a1.size = 37) :=
  ⟨rfl, rfl,
   (generated_unique_argument env_ok (some (ascii "X-"))
      gearman_command_t.GEARMAN_COMMAND_SUBMIT_JOB (cstring (ascii "f"))
      (cstring (ascii "r")) (cstring []) (cstring (ascii "w")) 0
      { ptr := some [88, 45, 102, 0], size := 4 } rfl rfl).2.2.1⟩

/-! ## The arguments per command -/

theorem decimal_length (n : Nat) (h : n < 10 ^ 19) : (decimal n).length ≤ 19 := by
  have h1 : (Nat.repr n).length ≤ 19 := Nat.repr_length n 19 (by decide) h
  have h2 : (Nat.repr n).length = (Nat.toDigits 10 n).length := rfl
  simp only [decimal, List.length_map]
  omega

theorem lld_length (v : Int) (hlo : -(2 : Int) ^ 63 ≤ v) (hhi : v < (2 : Int) ^ 63) :
    (lld v).length ≤ 20 := by
  unfold lld
  split
  · have h : v.natAbs < 10 ^ 19 := by omega
    have := decimal_length v.natAbs h
    simp only [List.length_cons]
    omega
  · have h : v.toNat < 10 ^ 19 := by omega
    have := decimal_length v.toNat h
    omega

theorem epoch_arg_bytes (v : Int) (hlo : -(2 : Int) ^ 63 ≤ v) (hhi : v < (2 : Int) ^ 63) :
    arg_bytes (epoch_arg v) = some (lld v ++ [0]) ∧ (epoch_arg v).size = (lld v).length + 1 := by
  have hlen := lld_length v hlo hhi
  have htake : (lld v).take (30 - 1) = lld v := List.take_of_length_le (by omega)
  have h1 : epoch_arg v = { ptr := some (lld v ++ [0]), size := (lld v).length + 1 } := by
    simp only [epoch_arg, snprintf_lld, htake]
  rw [h1]
  simp [arg_bytes]

/-- C7: for every `when` of a signed 64-bit `time_t`, `add_task` with the command
`SUBMIT_JOB_EPOCH` builds four arguments; the third is the decimal text of `when`
followed by one NUL, not cut short by the buffer of 30 bytes, and the fourth is the
workload.  `a0` is the argument built for the function. -/
theorem epoch_arguments (ns : Option Bytes) (uuid : Bytes) (function : gearman_string_t)
    (unique : gearman_unique_t) (workload : gearman_string_t) (when_ : Int) (a0 : arg_t)
    (hlo : -(2 : Int) ^ 63 ≤ when_) (hhi : when_ < (2 : Int) ^ 63)
    (h0 : name_arg ns function = .ok a0) :
    ∃ a1 a2 : arg_t,
      add_task_args ns uuid gearman_command_t.GEARMAN_COMMAND_SUBMIT_JOB_EPOCH function
        unique workload when_
        = .ok [a0, a1, a2, { ptr := workload.c_str, size := workload.size }] ∧
      arg_bytes a2 = some (lld when_ ++ [0]) ∧ a2.size = (lld when_).length + 1 := by
  obtain ⟨hb, hs⟩ := epoch_arg_bytes when_ hlo hhi
  refine ⟨unique_arg uuid unique, epoch_arg when_, ?_, hb, hs⟩
  simp only [add_task_args, h0, if_true, gearman_c_str, gearman_size]

/-- C7 at `when = 2000000000`: the third argument is `2000000000` and a NUL. -/
theorem epoch_arguments_witness :
    -(2 : Int) ^ 63 ≤ 2000000000 ∧ (2000000000 : Int) < (2 : Int) ^ 63 ∧
    name_arg none (cstring (ascii "f")) = .ok { ptr := some [102, 0], size := 2 } ∧
    ∃ a1 a2 : arg_t,
      add_task_args none env_ok.uuid gearman_command_t.GEARMAN_COMMAND_SUBMIT_JOB_EPOCH
        (cstring (ascii "f")) (cstring (ascii "u")) (cstring (ascii "w")) 2000000000
        = .ok [{ ptr := some [102, 0], size := 2 }, a1, a2,
               { ptr := some [119, 0], size := 1 }] ∧
      arg_bytes a2 = some (ascii "2000000000" ++ [0]) ∧ a2.size = 11 :=
  ⟨by decide, by decide, rfl,
   epoch_arguments none env_ok.uuid (cstring (ascii "f")) (cstring (ascii "u"))
     (cstring (ascii "w")) 2000000000 { ptr := some [102, 0], size := 2 } (by decide)
     (by decide) rfl⟩

/-- C8, as the code has it: `add_task` builds four arguments for `SUBMIT_JOB_EPOCH` and
three for every other command, `SUBMIT_JOB_SCHED` among them (it has no path building
eight); `add_reducer_task` builds five.  `a0` and `a2` are the arguments built for the
function and the reducer. -/
theorem argument_counts (ndebug : Bool) (ns : Option Bytes) (uuid : Bytes)
    (command : gearman_command_t) (function reducer : gearman_string_t)
    (unique : gearman_unique_t) (workload : gearman_string_t) (when_ : Int) (a0 : arg_t)
    (h0 : name_arg ns function = .ok a0) :
    (∃ args : List arg_t,
        add_task_args ns uuid command function unique workload when_ = .ok args ∧
        args.length =
          if command = gearman_command_t.GEARMAN_COMMAND_SUBMIT_JOB_EPOCH then 4 else 3) ∧
    (∀ a2 : arg_t, name_arg ns reducer = .ok a2 → assertions_pass ndebug command workload →
      ∃ args : List arg_t,
        add_reducer_task_args ndebug ns uuid command function reducer unique workload
          = .ok args ∧
        args.length = 5) := by
  constructor
  · by_cases hcmd : command = gearman_command_t.GEARMAN_COMMAND_SUBMIT_JOB_EPOCH
    · refine ⟨[a0, unique_arg uuid unique, epoch_arg when_,
        { ptr := gearman_c_str workload, size := gearman_size workload }], ?_, ?_⟩
      · simp only [add_task_args, h0, hcmd, if_true]
      · simp [hcmd]
    · refine ⟨[a0, unique_arg uuid unique,
        { ptr := gearman_c_str workload, size := gearman_size workload }], ?_, ?_⟩
      · simp only [add_task_args, h0, hcmd, if_false]
      · simp [hcmd]
  · intro a2 h2 hassert
    exact ⟨_, add_reducer_task_args_eq ndebug ns uuid command function reducer unique
      workload a0 a2 h0 h2 hassert, rfl⟩

/-- C8 at the command `SUBMIT_JOB_HIGH`: three arguments. -/
theorem argument_counts_witness :
    name_arg none (cstring (ascii "f")) = .ok { ptr := some [102, 0], size := 2 } ∧
    ∃ args : List arg_t,
      add_task_args none env_ok.uuid gearman_command_t.GEARMAN_COMMAND_SUBMIT_JOB_HIGH
        (cstring (ascii "f")) (cstring (ascii "u")) (cstring (ascii "w")) 0 = .ok args ∧
      args.length = 3 :=
  ⟨rfl,
   (argument_counts false none env_ok.uuid gearman_command_t.GEARMAN_COMMAND_SUBMIT_JOB_HIGH
      (cstring (ascii "f")) (cstring (ascii "r")) (cstring (ascii "u"))
      (cstring (ascii "w")) 0 { ptr := some [102, 0], size := 2 } rfl).1⟩

/-- C8 fails as stated: with the command `SUBMIT_JOB_SCHED` `add_task` returns a task
whose packet has three arguments (function, unique id, workload), not eight. -/
theorem sched_builds_three_arguments :
    ∃ (t : gearman_task_st) (c : gearman_client_st) (a0 a1 a2 : arg_t),
      add_task env_ok (Client_new universal_plain) none none
        gearman_command_t.GEARMAN_COMMAND_SUBMIT_JOB_SCHED (cstring (ascii "f"))
        (cstring (ascii "u")) (cstring (ascii "w")) 0 actions_default = .ok (some t, c) ∧
      t.send = some { magic := gearman_magic_t.GEARMAN_MAGIC_REQUEST,
                      command := gearman_command_t.GEARMAN_COMMAND_SUBMIT_JOB_SCHED,
                      args := [a0, a1, a2] } ∧
      arg_bytes a0 = some (ascii "f" ++ [0]) ∧ arg_bytes a1 = some (ascii "u" ++ [0]) ∧
      arg_bytes a2 = some (ascii "w") ∧ [a0, a1, a2].length ≠ 8 :=
  ⟨_, _, _, _, _, rfl, rfl, by decide, by decide, by decide, by decide⟩

/-! ## Names of length zero -/

/-- C9, as the code has it: `add_task` and `add_reducer_task` make no check on the
length of the function name or of the reducer name.  With a name of length zero a
submission that gets its task and its packet returns the task, and the argument built
for the name is the namespace, if any, followed by one NUL. -/
theorem empty_names_unchecked (env : Env) (client : gearman_client_st)
    (task : Option gearman_task_st) (context : Option Nat) (command : gearman_command_t)
    (priority : gearman_job_priority_t) (restf restr : Bytes) (unique : gearman_unique_t)
    (workload : gearman_string_t) (when_ : Int) (actions : gearman_actions_t)
    (hv : invalid_workload workload = false)
    (hc : env.alloc_task = true)
    (hfit : fits_buffer client.universal._namespace [])
    (hp : ∀ args : List arg_t,
      env.packet_create_args command args = gearman_return_t.GEARMAN_SUCCESS) :
    (∃ (t : gearman_task_st) (c : gearman_client_st) (a0 : arg_t) (tail : List arg_t),
        add_task env client task context command (stored [] restf) unique workload when_
          actions = .ok (some t, c) ∧
        t.send = some { magic := gearman_magic_t.GEARMAN_MAGIC_REQUEST, command := command,
                        args := a0 :: tail } ∧
        arg_bytes a0 = some (namespaced client.universal._namespace [] ++ [0])) ∧
    (assertions_pass env.NDEBUG command workload →
      ∃ (t : gearman_task_st) (c : gearman_client_st) (a0 a1 a2 a3 a4 : arg_t),
        add_reducer_task env client command priority (stored [] restf) (stored [] restr)
          unique workload actions when_ context = .ok (some t, c) ∧
        t.send = some { magic := gearman_magic_t.GEARMAN_MAGIC_REQUEST, command := command,
                        args := [a0, a1, a2, a3, a4] } ∧
        arg_bytes a0 = some (namespaced client.universal._namespace [] ++ [0]) ∧
        arg_bytes a2 = some (namespaced client.universal._namespace [] ++ [0])) := by
  obtain ⟨a0, h0, hb0, -⟩ := name_arg_stored client.universal._namespace [] restf hfit
  constructor
  · obtain ⟨tail, ht⟩ := add_task_args_cons client.universal._namespace env.uuid command
      (stored [] restf) unique workload when_ a0 h0
    obtain ⟨t, c, hr, hsend, -⟩ := add_task_ok env client task context command
      (stored [] restf) unique workload when_ actions _ hv (Or.inr hc) ht (hp _)
    exact ⟨t, c, a0, _, hr, hsend, hb0⟩
  · intro hassert
    obtain ⟨a2, h2, hb2, -⟩ := name_arg_stored client.universal._namespace [] restr hfit
    have ha := add_reducer_task_args_eq env.NDEBUG client.universal._namespace env.uuid
      command (stored [] restf) (stored [] restr) unique workload a0 a2 h0 h2 hassert
    obtain ⟨t, c, hr, hsend, -⟩ := add_reducer_task_ok env client command priority
      (stored [] restf) (stored [] restr) unique workload actions when_ context _ hv hc ha
      (hp _)
    exact ⟨t, c, a0, _, a2, _, _, hr, hsend, hb0, hb2⟩

/-- C9 at a client with the namespace `X-`: the function argument is `X-` and a NUL. -/
theorem empty_names_unchecked_witness :
    invalid_workload (cstring (ascii "w")) = false ∧
    env_ok.alloc_task = true ∧
    fits_buffer (Client_new universal_X).universal._namespace [] ∧
    (∃ (t : gearman_task_st) (c : gearman_client_st) (a0 : arg_t) (tail : List arg_t),
        add_task env_ok (Client_new universal_X) none none
          gearman_command_t.GEARMAN_COMMAND_SUBMIT_JOB (stored [] []) (cstring (ascii "u"))
          (cstring (ascii "w")) 0 actions_default = .ok (some t, c) ∧
        t.send = some { magic := gearman_magic_t.GEARMAN_MAGIC_REQUEST,
                        command := gearman_command_t.GEARMAN_COMMAND_SUBMIT_JOB,
                        args := a0 :: tail } ∧
        arg_bytes a0 = some [88, 45, 0]) :=
  have hfit : fits_buffer (Client_new universal_X).universal._namespace [] := by
    intro n hn
    cases hn
    decide
  ⟨by decide, rfl, hfit,
   (empty_names_unchecked env_ok (Client_new universal_X) none none
      gearman_command_t.GEARMAN_COMMAND_SUBMIT_JOB
      gearman_job_priority_t.GEARMAN_JOB_PRIORITY_NORMAL [] [] (cstring (ascii "u"))
      (cstring (ascii "w")) 0 actions_default (by decide) rfl hfit (fun _ => rfl)).1⟩

/-- C9 fails as stated: a function name of length zero is not turned down.  `add_task`
returns a task whose first argument is a single NUL, and `add_reducer_task` with an empty
function and an empty reducer returns a task whose first and third arguments are a single
NUL. -/
theorem empty_function_is_submitted :
    (∃ (t : gearman_task_st) (c : gearman_client_st) (a0 a1 a2 : arg_t),
      add_task env_ok (Client_new universal_plain) none none
        gearman_command_t.GEARMAN_COMMAND_SUBMIT_JOB (cstring []) (cstring (ascii "u"))
        (cstring (ascii "w")) 0 actions_default = .ok (some t, c) ∧
      t.send = some { magic := gearman_magic_t.GEARMAN_MAGIC_REQUEST,
                      command := gearman_command_t.GEARMAN_COMMAND_SUBMIT_JOB,
                      args := [a0, a1, a2] } ∧
      arg_bytes a0 = some [0]) ∧
    (∃ (t : gearman_task_st) (c : gearman_client_st) (a0 a1 a2 a3 a4 : arg_t),
      add_reducer_task env_ok (Client_new universal_plain)
        gearman_command_t.GEARMAN_COMMAND_SUBMIT_REDUCE_JOB
        gearman_job_priority_t.GEARMAN_JOB_PRIORITY_NORMAL (cstring []) (cstring [])
        (cstring (ascii "u")) (cstring (ascii "w")) actions_default 0 none
        = .ok (some t, c) ∧
      t.send = some { magic := gearman_magic_t.GEARMAN_MAGIC_REQUEST,
                      command := gearman_command_t.GEARMAN_COMMAND_SUBMIT_REDUCE_JOB,
                      args := [a0, a1, a2, a3, a4] } ∧
      arg_bytes a0 = some [0] ∧ arg_bytes a2 = some [0]) :=
  ⟨⟨_, _, _, _, _, rfl, rfl, by decide⟩, ⟨_, _, _, _, _, _, _, rfl, rfl, by decide, by decide⟩⟩

/-! ## The empty workload in a reduce submission -/

/-- C10 on the code: the empty workload (size zero behind a NULL pointer) gets past the
check at the top of both functions, `add_task` returns a task for it, and
`add_reducer_task`, with assertions compiled in, stops at `assert(gearman_c_str(workload))`
for it. -/
theorem reducer_empty_workload_fails_assertion :
    invalid_workload { c_str := none, size := 0 } = false ∧
    (∃ (t : gearman_task_st) (c : gearman_client_st),
      add_task env_ok (Client_new universal_plain) none none
        gearman_command_t.GEARMAN_COMMAND_SUBMIT_JOB (cstring (ascii "f"))
        (cstring (ascii "u")) { c_str := none, size := 0 } 0 actions_default
        = .ok (some t, c)) ∧
    add_reducer_task env_ok (Client_new universal_plain)
        gearman_command_t.GEARMAN_COMMAND_SUBMIT_REDUCE_JOB
        gearman_job_priority_t.GEARMAN_JOB_PRIORITY_NORMAL (cstring (ascii "f"))
        (cstring (ascii "r")) (cstring (ascii "u")) { c_str := none, size := 0 }
        actions_default 0 none
      = .error Fault.assertion_failed :=
  ⟨by decide, ⟨_, _, rfl⟩, rfl⟩

/-! ## The arguments of a reduce submission -/

theorem arg_bytes_length (a : arg_t) (b : Bytes) (h : arg_bytes a = some b) :
    b.length = a.size := by
  cases a with
  | mk p n =>
    cases p with
    | none =>
      by_cases hn : n = 0
      · simp [arg_bytes, hn] at h
        simp [← h, hn]
      · simp [arg_bytes, hn] at h
    | some m =>
      by_cases hn : n ≤ m.length
      · simp [arg_bytes, hn] at h
        simp [← h, hn]
      · simp [arg_bytes, hn] at h

/-- C11: the arguments `add_reducer_task` builds are, in order, function, unique id,
reducer, aggregate and workload; the aggregate argument is one byte of value zero
whatever the inputs are, and the workload argument is the workload pointer of the caller
with exactly the workload size.  `a0` and `a2` are the arguments built for the function
and the reducer. -/
theorem reducer_arguments_in_order (ndebug : Bool) (ns : Option Bytes) (uuid : Bytes)
    (command : gearman_command_t) (function reducer : gearman_string_t)
    (unique : gearman_unique_t) (workload : gearman_string_t) (a0 a2 : arg_t)
    (h0 : name_arg ns function = .ok a0) (h2 : name_arg ns reducer = .ok a2)
    (hassert : assertions_pass ndebug command workload) :
    ∃ a3 a4 : arg_t,
      add_reducer_task_args ndebug ns uuid command function reducer unique workload
        = .ok [a0, unique_arg uuid unique, a2, a3, a4] ∧
      arg_bytes a3 = some [0] ∧ a3.size = 1 ∧
      a4.ptr = workload.c_str ∧ a4.size = workload.size ∧
      (∀ m : Bytes, workload.c_str = some m → workload.size ≤ m.length →
        arg_bytes a4 = some (m.take workload.size) ∧
        (m.take workload.size).length = workload.size) := by
  refine ⟨{ ptr := some [0], size := 1 },
    { ptr := gearman_c_str workload, size := gearman_size workload },
    add_reducer_task_args_eq ndebug ns uuid command function reducer unique workload a0 a2
      h0 h2 hassert, by decide, rfl, rfl, rfl, ?_⟩
  intro m hm hsize
  have hsize' : gearman_size workload ≤ m.length := hsize
  constructor
  · simp [arg_bytes, gearman_c_str, gearman_size, hm, hsize]
  · simp [hsize]

/-- C11 at the function `f`, the reducer `r` and the workload `w`. -/
theorem reducer_arguments_in_order_witness :
    ∃ a3 a4 : arg_t,
      add_reducer_task_args false none env_ok.uuid
        gearman_command_t.GEARMAN_COMMAND_SUBMIT_REDUCE_JOB (cstring (ascii "f"))
        (cstring (ascii "r")) (cstring (ascii "u")) (cstring (ascii "w"))
        = .ok [{ ptr := some [102, 0], size := 2 },
               unique_arg env_ok.uuid (cstring (ascii "u")),
               { ptr := some [114, 0], size := 2 }, a3, a4] ∧
      arg_bytes a3 = some [0] ∧ a3.size = 1 ∧
      a4.ptr = (cstring (ascii "w")).c_str ∧ a4.size = (cstring (ascii "w")).size ∧
      (∀ m : Bytes, (cstring (ascii "w")).c_str = some m →
        (cstring (ascii "w")).size ≤ m.length →
        arg_bytes a4 = some (m.take (cstring (ascii "w")).size) ∧
        (m.take (cstring (ascii "w")).size).length = (cstring (ascii "w")).size) :=
  reducer_arguments_in_order false none env_ok.uuid
    gearman_command_t.GEARMAN_COMMAND_SUBMIT_REDUCE_JOB (cstring (ascii "f"))
    (cstring (ascii "r")) (cstring (ascii "u")) (cstring (ascii "w"))
    { ptr := some [102, 0], size := 2 } { ptr := some [114, 0], size := 2 } rfl rfl
    (Or.inr ⟨Or.inl rfl, by decide, by decide⟩)

/-! ## The payload of a submission -/

theorem args_concat_three (a0 a1 a2 : arg_t) (b0 b1 b2 : Bytes)
    (h0 : arg_bytes a0 = some b0) (h1 : arg_bytes a1 = some b1)
    (h2 : arg_bytes a2 = some b2) :
    args_concat [a0, a1, a2] = some (b0 ++ (b1 ++ b2)) := by
  simp [args_concat, h0, h1, h2]

theorem namespaced_length (ns : Option Bytes) (name : Bytes) :
    (namespaced ns name).length = (ns.getD []).length + name.length := by
  cases ns <;> simp [namespaced]

/-- C12: for every command other than `SUBMIT_JOB_EPOCH`, `add_task` builds three
arguments whose concatenation is the function argument (namespace and name), one NUL,
the unique id, one NUL, and then the workload as it is, with no NUL after it; the
payload has `|namespace| + |function| + 1 + |unique| + 1 + |workload|` bytes.  The
unique id is the one of the caller when there is one and the text of the generated UUID
otherwise. -/
theorem non_epoch_payload (ns : Option Bytes) (uuid : Bytes) (command : gearman_command_t)
    (f restf : Bytes) (workload : gearman_string_t) (when_ : Int) (w : Bytes)
    (hcmd : command ≠ gearman_command_t.GEARMAN_COMMAND_SUBMIT_JOB_EPOCH)
    (hfit : fits_buffer ns f)
    (hw : arg_bytes { ptr := workload.c_str, size := workload.size } = some w) :
    w.length = workload.size ∧
    (∀ u restu : Bytes, u ≠ [] →
      ∃ a0 a1 a2 : arg_t,
        add_task_args ns uuid command (stored f restf) (stored u restu) workload when_
          = .ok [a0, a1, a2] ∧
        args_concat [a0, a1, a2] = some (namespaced ns f ++ [0] ++ u ++ [0] ++ w) ∧
        (namespaced ns f ++ [0] ++ u ++ [0] ++ w).length
          = (ns.getD []).length + f.length + 1 + u.length + 1 + workload.size) ∧
    (∀ unique : gearman_unique_t, unique.size = 0 →
      ∃ a0 a1 a2 : arg_t,
        add_task_args ns uuid command (stored f restf) unique workload when_
          = .ok [a0, a1, a2] ∧
        args_concat [a0, a1, a2]
          = some (namespaced ns f ++ [0] ++ uuid_unparse uuid ++ [0] ++ w) ∧
        (namespaced ns f ++ [0] ++ uuid_unparse uuid ++ [0] ++ w).length
          = (ns.getD []).length + f.length + 1 + 36 + 1 + workload.size) := by
  obtain ⟨a0, h0, hb0, -⟩ := name_arg_stored ns f restf hfit
  have hwl : w.length = workload.size := arg_bytes_length _ w hw
  have hnl := namespaced_length ns f
  refine ⟨hwl, ?_, ?_⟩
  · intro u restu hu
    obtain ⟨-, hub⟩ := unique_arg_stored uuid u restu hu
    refine ⟨a0, unique_arg uuid (stored u restu),
      { ptr := gearman_c_str workload, size := gearman_size workload }, ?_, ?_, ?_⟩
    · simp only [add_task_args, h0, hcmd, if_false]
    · have h := args_concat_three a0 (unique_arg uuid (stored u restu))
        { ptr := workload.c_str, size := workload.size } _ _ w hb0 hub hw
      simpa [gearman_c_str, gearman_size] using h
    · simp only [List.length_append, List.length_singleton, hnl, hwl]
  · intro unique hu
    obtain ⟨hgb, -⟩ := unique_arg_generated uuid unique hu
    refine ⟨a0, unique_arg uuid unique,
      { ptr := gearman_c_str workload, size := gearman_size workload }, ?_, ?_, ?_⟩
    · simp only [add_task_args, h0, hcmd, if_false]
    · have h := args_concat_three a0 (unique_arg uuid unique)
        { ptr := workload.c_str, size := workload.size } _ _ w hb0 hgb hw
      simpa [gearman_c_str, gearman_size] using h
    · simp only [List.length_append, List.length_singleton, hnl, hwl,
        uuid_unparse_length]

/-- C12 at the namespace `X-`, the function `f`, the unique id `u` and the workload
`w1`: the payload is `X-f`, NUL, `u`, NUL, `w1`, nine bytes in all. -/
theorem non_epoch_payload_witness :
    ∃ a0 a1 a2 : arg_t,
      add_task_args (some (ascii "X-")) env_ok.uuid
        gearman_command_t.GEARMAN_COMMAND_SUBMIT_JOB (stored (ascii "f") [])
        (stored (ascii "u") []) (cstring (ascii "w1")) 0 = .ok [a0, a1, a2] ∧
      args_concat [a0, a1, a2] = some [88, 45, 102, 0, 117, 0, 119, 49] ∧
      ([88, 45, 102, 0, 117, 0, 119, 49] : Bytes).length = 2 + 1 + 1 + 1 + 1 + 2 :=
  have hfit : fits_buffer (some (ascii "X-")) (ascii "f") := by
    intro n hn
    cases hn
    decide
  (non_epoch_payload (some (ascii "X-")) env_ok.uuid
    gearman_command_t.GEARMAN_COMMAND_SUBMIT_JOB (ascii "f") [] (cstring (ascii "w1")) 0
    (ascii "w1") (by decide) hfit (by decide)).2.1 (ascii "u") [] (by decide)

/-! ## What a successful submission leaves behind -/

theorem finish_submit_none_error (env : Env) (client : gearman_client_st)
    (task : gearman_task_st) (command : gearman_command_t) (args : List arg_t)
    (c1 : gearman_client_st)
    (h : finish_submit env client task command args = (none, c1)) :
    c1.universal.error_rc = env.packet_create_args command args ∧
      gearman_success (env.packet_create_args command args) = false ∧
      c1.new_tasks = client.new_tasks ∧ c1.running_tasks = client.running_tasks := by
  unfold finish_submit at h
  by_cases hrc : gearman_success (env.packet_create_args command args) = true
  · simp [hrc] at h
  · simp [hrc] at h
    subst h
    simp [gearman_gerror, gearman_task_free, hrc]

theorem add_task_none_error (env : Env) (client : gearman_client_st)
    (task : Option gearman_task_st) (context : Option Nat) (command : gearman_command_t)
    (function : gearman_string_t) (unique : gearman_unique_t) (workload : gearman_string_t)
    (when_ : Int) (actions : gearman_actions_t) (c1 : gearman_client_st)
    (h : add_task env client task context command function unique workload when_ actions
      = .ok (none, c1)) :
    c1.universal.error_rc ≠ gearman_return_t.GEARMAN_SUCCESS := by
  unfold add_task at h
  by_cases hv : invalid_workload workload = true
  · simp [hv] at h
    subst h
    simp [gearman_error]
  · simp only [hv, Bool.false_eq_true, if_false] at h
    cases hcreate : gearman_task_internal_create env client task with
    | none =>
      rw [hcreate] at h
      simp at h
      subst h
      simp [gearman_error]
    | some tc =>
      rw [hcreate] at h
      simp only at h
      split at h
      · simp at h
      · simp only [Except.ok.injEq] at h
        obtain ⟨hrc, hne, -⟩ := finish_submit_none_error _ _ _ _ _ _ h
        rw [hrc]
        intro hs
        rw [hs] at hne
        simp [gearman_success] at hne

theorem add_task_cstr_task_iff (env : Env) (client : Option gearman_client_st)
    (task : Option gearman_task_st) (context : Option Nat) (command : gearman_command_t)
    (function_name unique workload_str : Ptr) (workload_size : Nat) (when_ : Int)
    (ret0 : gearman_return_t) (actions : gearman_actions_t) (r : Returned)
    (h : add_task_cstr env client task context command function_name unique workload_str
      workload_size when_ (some ret0) actions = .ok r) :
    r.task ≠ none ↔ r.ret = some gearman_return_t.GEARMAN_SUCCESS := by
  cases client with
  | none =>
    simp [add_task_cstr] at h
    subst h
    simp
  | some c =>
    simp only [add_task_cstr] at h
    split at h
    · simp at h
    · split at h
      · simp at h
      · split at h
        · simp at h
        · next c1 hinner =>
          simp only [Except.ok.injEq] at h
          subst h
          have hne := add_task_none_error _ _ _ _ _ _ _ _ _ _ _ hinner
          simp [gearman_universal_error_code, hne]
        · simp only [Except.ok.injEq] at h
          subst h
          simp

/-- C13: for a submission with a client, a workload that gets past the check, and task
and packet creation going through, `add_task` returns the task, the overload taking C
strings stores `GEARMAN_SUCCESS` through `ret_ptr`, the task has `send_in_use` set, and
`new_tasks` and `running_tasks` of the client have each grown by one modulo `2 ^ 32`.
Whatever its inputs, when the overload taking C strings returns, the task it returns is
non-null exactly when the code it stored is `GEARMAN_SUCCESS`. -/
theorem submission_success_effects (env : Env) (client : gearman_client_st)
    (task : Option gearman_task_st) (context : Option Nat) (command : gearman_command_t)
    (function_name unique workload_str : Ptr) (workload_size : Nat) (when_ : Int)
    (ret0 : gearman_return_t) (actions : gearman_actions_t) (function : gearman_string_t)
    (unique_size : Nat) (args : List arg_t)
    (hf : gearman_string_param_cstr function_name = .ok function)
    (hn : (if unique.isSome then strlen unique else .ok 0) = .ok unique_size)
    (hv : invalid_workload { c_str := workload_str, size := workload_size } = false)
    (hc : task ≠ none ∨ env.alloc_task = true)
    (ha : add_task_args client.universal._namespace env.uuid command function
      (gearman_unique_make unique unique_size)
      { c_str := workload_str, size := workload_size } when_ = .ok args)
    (hp : env.packet_create_args command args = gearman_return_t.GEARMAN_SUCCESS) :
    (∃ (t : gearman_task_st) (c : gearman_client_st),
        add_task env client task context command function
          (gearman_unique_make unique unique_size)
          { c_str := workload_str, size := workload_size } when_ actions
          = .ok (some t, c) ∧
        add_task_cstr env (some client) task context command function_name unique
          workload_str workload_size when_ (some ret0) actions
          = .ok { task := some t, client := some c,
                  ret := some gearman_return_t.GEARMAN_SUCCESS, errno := none } ∧
        t.options_send_in_use = true ∧
        c.new_tasks = (client.new_tasks + 1) % 2 ^ 32 ∧
        c.running_tasks = (client.running_tasks + 1) % 2 ^ 32) ∧
    (∀ (env1 : Env) (client1 : Option gearman_client_st) (task1 : Option gearman_task_st)
        (context1 : Option Nat) (command1 : gearman_command_t)
        (function_name1 unique1 workload_str1 : Ptr) (workload_size1 : Nat) (when1 : Int)
        (ret1 : gearman_return_t) (actions1 : gearman_actions_t) (r : Returned),
      add_task_cstr env1 client1 task1 context1 command1 function_name1 unique1
        workload_str1 workload_size1 when1 (some ret1) actions1 = .ok r →
      (r.task ≠ none ↔ r.ret = some gearman_return_t.GEARMAN_SUCCESS)) := by
  constructor
  · obtain ⟨t, c, hr, -, huse, -, -, hnew, hrun, -⟩ := add_task_ok env client task context
      command function (gearman_unique_make unique unique_size)
      { c_str := workload_str, size := workload_size } when_ actions args hv hc ha hp
    refine ⟨t, c, hr, ?_, huse, hnew, hrun⟩
    exact add_task_cstr_some env client task context command function_name unique
      workload_str workload_size when_ (some ret0) actions function unique_size t c hf hn hr
  · intro env1 client1 task1 context1 command1 function_name1 unique1 workload_str1
      workload_size1 when1 ret1 actions1 r h
    exact add_task_cstr_task_iff env1 client1 task1 context1 command1 function_name1
      unique1 workload_str1 workload_size1 when1 ret1 actions1 r h

/-- C13 at the call of the burnin test: function `burnin`, a NULL unique pointer and
1024 bytes of the blob, into task storage of the caller. -/
theorem submission_success_effects_witness :
    ∃ (t : gearman_task_st) (c : gearman_client_st),
      add_task env_ok (Client_new universal_plain) (some task_calloc) none
        gearman_command_t.GEARMAN_COMMAND_SUBMIT_JOB (stored (ascii "burnin") [])
        (gearman_unique_make none 0) { c_str := some burnin_blob, size := 1024 } 0
        actions_default = .ok (some t, c) ∧
      add_task_cstr env_ok (some (Client_new universal_plain)) (some task_calloc) none
        gearman_command_t.GEARMAN_COMMAND_SUBMIT_JOB (some (ascii "burnin" ++ [0])) none
        (some burnin_blob) 1024 0 (some gearman_return_t.GEARMAN_IO_WAIT) actions_default
        = .ok { task := some t, client := some c,
                ret := some gearman_return_t.GEARMAN_SUCCESS, errno := none } ∧
      t.options_send_in_use = true ∧
      c.new_tasks = ((Client_new universal_plain).new_tasks + 1) % 2 ^ 32 ∧
      c.running_tasks = ((Client_new universal_plain).running_tasks + 1) % 2 ^ 32 :=
  (submission_success_effects env_ok (Client_new universal_plain) (some task_calloc) none
    gearman_command_t.GEARMAN_COMMAND_SUBMIT_JOB (some (ascii "burnin" ++ [0])) none
    (some burnin_blob) 1024 0 gearman_return_t.GEARMAN_IO_WAIT actions_default
    (stored (ascii "burnin") []) 0
    [{ ptr := some (ascii "burnin" ++ [0]), size := 7 },
     unique_arg env_ok.uuid (gearman_unique_make none 0),
     { ptr := some burnin_blob, size := 1024 }]
    (gearman_string_param_cstr_stored (ascii "burnin") [] (by decide)) rfl (by decide)
    (Or.inl (by simp)) rfl rfl).1

/-! ## Parameters that are not used, and the counters over a run -/

/-- C15: `add_reducer_task` does not use its priority and `when` parameters: two calls
that agree on the client, the command, the function, the reducer, the unique id, the
workload, the callbacks and the context give the same arguments, the same result and the
same client, whatever their priorities and their `when` are. -/
theorem reducer_ignores_priority_and_when (env : Env) (client : gearman_client_st)
    (command : gearman_command_t) (priority1 priority2 : gearman_job_priority_t)
    (function reducer : gearman_string_t) (unique : gearman_unique_t)
    (workload : gearman_string_t) (actions : gearman_actions_t) (when1 when2 : Int)
    (context : Option Nat) :
    add_reducer_task env client command priority1 function reducer unique workload actions
        when1 context
      = add_reducer_task env client command priority2 function reducer unique workload
          actions when2 context := by
  simp only [add_reducer_task]

theorem create_counters (env : Env) (client : gearman_client_st)
    (task : Option gearman_task_st) (t : gearman_task_st) (c : gearman_client_st)
    (h : gearman_task_internal_create env client task = some (t, c)) :
    c.new_tasks = client.new_tasks ∧ c.running_tasks = client.running_tasks ∧
      c.universal = client.universal ∧ c.task_list = t :: client.task_list ∧
      c.task_count = uint32_incr client.task_count := by
  cases task with
  | some t0 =>
    simp only [gearman_task_internal_create, Option.some.injEq, Prod.mk.injEq] at h
    obtain ⟨ht, hc⟩ := h
    subst ht hc
    exact ⟨rfl, rfl, rfl, rfl, rfl⟩
  | none =>
    by_cases ha : env.alloc_task = true
    · simp only [gearman_task_internal_create, ha, if_true, Option.some.injEq,
        Prod.mk.injEq] at h
      obtain ⟨ht, hc⟩ := h
      subst ht hc
      exact ⟨rfl, rfl, rfl, rfl, rfl⟩
    · simp [gearman_task_internal_create, ha] at h

theorem finish_submit_counters (env : Env) (client : gearman_client_st)
    (task : gearman_task_st) (command : gearman_command_t) (args : List arg_t)
    (r : Option gearman_task_st) (c : gearman_client_st)
    (h : finish_submit env client task command args = (r, c)) :
    (r = none → c.new_tasks = client.new_tasks ∧ c.running_tasks = client.running_tasks) ∧
    (r ≠ none → c.new_tasks = uint32_incr client.new_tasks ∧
      c.running_tasks = uint32_incr client.running_tasks) := by
  unfold finish_submit at h
  by_cases hrc : gearman_success (env.packet_create_args command args) = true
  · simp [hrc] at h
    obtain ⟨hr, hc⟩ := h
    subst hr hc
    simp
  · simp [hrc] at h
    obtain ⟨hr, hc⟩ := h
    subst hr hc
    simp [gearman_task_free]

theorem add_task_counters (env : Env) (client : gearman_client_st)
    (task : Option gearman_task_st) (context : Option Nat) (command : gearman_command_t)
    (function : gearman_string_t) (unique : gearman_unique_t) (workload : gearman_string_t)
    (when_ : Int) (actions : gearman_actions_t) (r : Option gearman_task_st)
    (c : gearman_client_st)
    (h : add_task env client task context command function unique workload when_ actions
      = .ok (r, c)) :
    (r = none → c.new_tasks = client.new_tasks ∧ c.running_tasks = client.running_tasks) ∧
    (r ≠ none → c.new_tasks = uint32_incr client.new_tasks ∧
      c.running_tasks = uint32_incr client.running_tasks) := by
  unfold add_task at h
  by_cases hv : invalid_workload workload = true
  · simp [hv] at h
    obtain ⟨hr, hc⟩ := h
    subst hr hc
    simp
  · simp only [hv, Bool.false_eq_true, if_false] at h
    cases hcreate : gearman_task_internal_create env client task with
    | none =>
      rw [hcreate] at h
      simp at h
      obtain ⟨hr, hc⟩ := h
      subst hr hc
      simp
    | some tc =>
      obtain ⟨t, c1⟩ := tc
      obtain ⟨hn, hrun, -⟩ := create_counters env client task t c1 hcreate
      rw [hcreate] at h
      simp only at h
      split at h
      · simp at h
      · simp only [Except.ok.injEq] at h
        have hfin := finish_submit_counters _ _ _ _ _ _ _ h
        simpa [hn, hrun] using hfin

theorem add_reducer_task_counters (env : Env) (client : gearman_client_st)
    (command : gearman_command_t) (priority : gearman_job_priority_t)
    (function reducer : gearman_string_t) (unique : gearman_unique_t)
    (workload : gearman_string_t) (actions : gearman_actions_t) (when_ : Int)
    (context : Option Nat) (r : Option gearman_task_st) (c : gearman_client_st)
    (h : add_reducer_task env client command priority function reducer unique workload
      actions when_ context = .ok (r, c)) :
    (r = none → c.new_tasks = client.new_tasks ∧ c.running_tasks = client.running_tasks) ∧
    (r ≠ none → c.new_tasks = uint32_incr client.new_tasks ∧
      c.running_tasks = uint32_incr client.running_tasks) := by
  unfold add_reducer_task at h
  by_cases hv : invalid_workload workload = true
  · simp [hv] at h
    obtain ⟨hr, hc⟩ := h
    subst hr hc
    simp
  · simp only [hv, Bool.false_eq_true, if_false] at h
    cases hcreate : gearman_task_internal_create env client none with
    | none =>
      rw [hcreate] at h
      simp at h
      obtain ⟨hr, hc⟩ := h
      subst hr hc
      simp
    | some tc =>
      obtain ⟨t, c1⟩ := tc
      obtain ⟨hn, hrun, -⟩ := create_counters env client none t c1 hcreate
      rw [hcreate] at h
      simp only at h
      split at h
      · simp at h
      · simp only [Except.ok.injEq] at h
        have hfin := finish_submit_counters _ _ _ _ _ _ _ h
        simpa [hn, hrun] using hfin

theorem call_run_counters (call : Call) (client : gearman_client_st)
    (r : Option gearman_task_st) (c : gearman_client_st) (h : call.run client = .ok (r, c)) :
    (r = none → c.new_tasks = client.new_tasks ∧ c.running_tasks = client.running_tasks) ∧
    (r ≠ none → c.new_tasks = uint32_incr client.new_tasks ∧
      c.running_tasks = uint32_incr client.running_tasks) := by
  cases call with
  | add_task env task context command function unique workload when_ actions =>
    exact add_task_counters env client task context command function unique workload when_
      actions r c h
  | add_reducer_task env command priority function reducer unique workload actions when_
      context =>
    exact add_reducer_task_counters env client command priority function reducer unique
      workload actions when_ context r c h

theorem run_calls_counters (calls : List Call) :
    ∀ (client : gearman_client_st) (n : Nat) (c : gearman_client_st) (k : Nat),
      run_calls calls client n = .ok (c, k) →
      client.new_tasks = n % 2 ^ 32 → client.running_tasks = n % 2 ^ 32 →
      c.new_tasks = k % 2 ^ 32 ∧ c.running_tasks = k % 2 ^ 32 := by
  induction calls with
  | nil =>
    intro client n c k h hn hr
    simp [run_calls] at h
    obtain ⟨hc, hk⟩ := h
    subst hc hk
    exact ⟨hn, hr⟩
  | cons call rest ih =>
    intro client n c k h hn hr
    simp only [run_calls] at h
    split at h
    · simp at h
    · next c1 hrun =>
      obtain ⟨hnone, -⟩ := call_run_counters call client none c1 hrun
      obtain ⟨h1, h2⟩ := hnone rfl
      exact ih c1 n c k h (by rw [h1, hn]) (by rw [h2, hr])
    · next t c1 hrun =>
      obtain ⟨-, hsome⟩ := call_run_counters call client (some t) c1 hrun
      obtain ⟨h1, h2⟩ := hsome (by simp)
      refine ih c1 (n + 1) c k h ?_ ?_
      · rw [h1, hn]
        simp only [uint32_incr]
        omega
      · rw [h2, hr]
        simp only [uint32_incr]
        omega

/-- C16: starting from a freshly constructed client (state idle, the three counters
zero, blocking mode), after any finite sequence of calls of `add_task` and
`add_reducer_task`, returning a task or not, `new_tasks` and `running_tasks` are equal and
both are the number of calls that returned a task, modulo `2 ^ 32`. -/
theorem counters_count_returned_tasks (calls : List Call) (u : gearman_universal_st)
    (c : gearman_client_st) (k : Nat)
    (h : run_calls calls (Client_new u) 0 = .ok (c, k)) :
    ((Client_new u).state = gearman_client_t.GEARMAN_CLIENT_STATE_IDLE ∧
      (Client_new u).new_tasks = 0 ∧ (Client_new u).running_tasks = 0 ∧
      (Client_new u).task_count = 0 ∧ (Client_new u).options.non_blocking = false) ∧
    c.new_tasks = c.running_tasks ∧ c.new_tasks = k % 2 ^ 32 ∧
    c.running_tasks = k % 2 ^ 32 := by
  obtain ⟨h1, h2⟩ := run_calls_counters calls (Client_new u) 0 c k h rfl rfl
  exact ⟨⟨rfl, rfl, rfl, rfl, rfl⟩, by rw [h1, h2], h1, h2⟩

/-- C16 at three calls of which the second is turned down: both counters are 2. -/
theorem counters_count_returned_tasks_witness :
    ∃ c : gearman_client_st,
      run_calls calls_sample (Client_new universal_plain) 0 = .ok (c, 2) ∧
      c.new_tasks = c.running_tasks ∧ c.new_tasks = 2 % 2 ^ 32 ∧
      c.running_tasks = 2 % 2 ^ 32 :=
  ⟨_, rfl,
   (counters_count_returned_tasks calls_sample universal_plain _ 2 rfl).2⟩

/-! ## A packet that cannot be built -/

theorem uint32_decr_incr (n : Nat) : uint32_decr (uint32_incr n) = n % 2 ^ 32 := by
  simp only [uint32_decr, uint32_incr]
  split <;> omega

theorem finish_submit_failed (env : Env) (client : gearman_client_st)
    (task : gearman_task_st) (command : gearman_command_t) (args : List arg_t)
    (rest : List gearman_task_st) (hl : client.task_list = task :: rest)
    (hp : gearman_success (env.packet_create_args command args) = false) :
    finish_submit env client task command args
      = (none, { client with
          task_list := rest
          task_count := uint32_decr client.task_count
          universal := gearman_gerror client.universal
            (env.packet_create_args command args) }) := by
  simp [finish_submit, hp, gearman_task_free, hl]

/-- C17: when the packet cannot be built inside `add_task` or `add_reducer_task`, after
the task was created, the call returns no task, the code of the packet builder is the
one recorded on the client, the task created is off the task list again and no longer
counted, `new_tasks` and `running_tasks` are unchanged, and no task of the list has
got `send_in_use` set by the call (the list is the one from before the call). -/
theorem packet_failure_effects (env : Env) (client : gearman_client_st)
    (task : Option gearman_task_st) (context : Option Nat) (command : gearman_command_t)
    (priority : gearman_job_priority_t) (function reducer : gearman_string_t)
    (unique : gearman_unique_t) (workload : gearman_string_t) (when_ : Int)
    (actions : gearman_actions_t)
    (hv : invalid_workload workload = false)
    (hc : env.alloc_task = true) :
    (∀ args : List arg_t,
      add_task_args client.universal._namespace env.uuid command function unique workload
        when_ = .ok args →
      gearman_success (env.packet_create_args command args) = false →
      ∃ c : gearman_client_st,
        add_task env client task context command function unique workload when_ actions
          = .ok (none, c) ∧
        c.universal.error_rc = env.packet_create_args command args ∧
        c.new_tasks = client.new_tasks ∧ c.running_tasks = client.running_tasks ∧
        c.task_list = client.task_list ∧ c.task_count = client.task_count % 2 ^ 32) ∧
    (∀ args : List arg_t,
      add_reducer_task_args env.NDEBUG client.universal._namespace env.uuid command
        function reducer unique workload = .ok args →
      gearman_success (env.packet_create_args command args) = false →
      ∃ c : gearman_client_st,
        add_reducer_task env client command priority function reducer unique workload
          actions when_ context = .ok (none, c) ∧
        c.universal.error_rc = env.packet_create_args command args ∧
        c.new_tasks = client.new_tasks ∧ c.running_tasks = client.running_tasks ∧
        c.task_list = client.task_list ∧ c.task_count = client.task_count % 2 ^ 32) := by
  constructor
  · intro args ha hp
    cases task with
    | some t0 =>
      simp only [add_task, hv, gearman_task_internal_create, ha, Bool.false_eq_true,
        if_false]
      rw [finish_submit_failed env _ _ command args client.task_list (by simp) hp]
      exact ⟨_, rfl, rfl, rfl, rfl, rfl, uint32_decr_incr client.task_count⟩
    | none =>
      simp only [add_task, hv, gearman_task_internal_create, hc, ha, Bool.false_eq_true,
        if_false, if_true]
      rw [finish_submit_failed env _ _ command args client.task_list (by simp) hp]
      exact ⟨_, rfl, rfl, rfl, rfl, rfl, uint32_decr_incr client.task_count⟩
  · intro args ha hp
    simp only [add_reducer_task, hv, gearman_task_internal_create, hc, ha,
      Bool.false_eq_true, if_false, if_true]
    rw [finish_submit_failed env _ _ command args client.task_list (by simp) hp]
    exact ⟨_, rfl, rfl, rfl, rfl, rfl, uint32_decr_incr client.task_count⟩

/-- C17 at a packet builder answering `GEARMAN_TOO_MANY_ARGS`. -/
theorem packet_failure_effects_witness :
    invalid_workload (cstring (ascii "w")) = false ∧ env_packet_fails.alloc_task = true ∧
    ∃ c : gearman_client_st,
      add_task env_packet_fails (Client_new universal_plain) none none
        gearman_command_t.GEARMAN_COMMAND_SUBMIT_JOB (cstring (ascii "f"))
        (cstring (ascii "u")) (cstring (ascii "w")) 0 actions_default = .ok (none, c) ∧
      c.universal.error_rc = gearman_return_t.GEARMAN_TOO_MANY_ARGS ∧
      c.new_tasks = (Client_new universal_plain).new_tasks ∧
      c.running_tasks = (Client_new universal_plain).running_tasks ∧
      c.task_list = (Client_new universal_plain).task_list ∧
      c.task_count = (Client_new universal_plain).task_count % 2 ^ 32 :=
  ⟨by decide, rfl,
   (packet_failure_effects env_packet_fails (Client_new universal_plain) none none
      gearman_command_t.GEARMAN_COMMAND_SUBMIT_JOB
      gearman_job_priority_t.GEARMAN_JOB_PRIORITY_NORMAL (cstring (ascii "f"))
      (cstring (ascii "r")) (cstring (ascii "u")) (cstring (ascii "w")) 0 actions_default
      (by decide) rfl).1
     [{ ptr := some [102, 0], size := 2 }, unique_arg env_ok.uuid (cstring (ascii "u")),
      { ptr := some [119, 0], size := 1 }] rfl rfl⟩

/-! ## The buffer of 1024 bytes -/

theorem name_arg_overflow (n s rest : Bytes) (h : 1024 < n.length + s.length + 1) :
    name_arg (some n) (stored s rest) = .error Fault.buffer_overflow := by
  by_cases h1 : 1024 < n.length
  · simp [name_arg, memcpy, h1]
  · have h2 : 1024 < n.length + (s.length + 1) := by omega
    simp [name_arg, memcpy, stored, gearman_c_str, gearman_size, h1, h2]

theorem name_arg_some_iff (n s rest : Bytes) :
    ((∃ a : arg_t, name_arg (some n) (stored s rest) = .ok a)
      ↔ n.length + s.length + 1 ≤ 1024) ∧
    (name_arg (some n) (stored s rest) = .error Fault.buffer_overflow
      ↔ 1024 < n.length + s.length + 1) := by
  by_cases h : n.length + s.length + 1 ≤ 1024
  · have hfit : fits_buffer (some n) s := by
      intro m hm
      cases hm
      exact h
    obtain ⟨a, ha, -⟩ := name_arg_stored (some n) s rest hfit
    constructor
    · exact ⟨fun _ => h, fun _ => ⟨a, ha⟩⟩
    · rw [ha]
      constructor
      · intro hne
        simp at hne
      · intro hlt
        omega
  · have hov := name_arg_overflow n s rest (by omega)
    constructor
    · rw [hov]
      constructor
      · rintro ⟨a, ha⟩
        simp at ha
      · intro hle
        exact absurd hle h
    · rw [hov]
      exact ⟨fun _ => by omega, fun _ => rfl⟩

theorem command_assertion_iff (ndebug : Bool) (command : gearman_command_t) :
    (!ndebug && !(decide (command = gearman_command_t.GEARMAN_COMMAND_SUBMIT_REDUCE_JOB) ||
        decide (command = gearman_command_t.GEARMAN_COMMAND_SUBMIT_REDUCE_JOB_BACKGROUND)))
      = false
    ↔ (ndebug = true ∨ command = gearman_command_t.GEARMAN_COMMAND_SUBMIT_REDUCE_JOB ∨
        command = gearman_command_t.GEARMAN_COMMAND_SUBMIT_REDUCE_JOB_BACKGROUND) := by
  cases ndebug
  · simp only [Bool.not_false, Bool.true_and, Bool.not_eq_false_eq_eq_true, Bool.or_eq_true,
      decide_eq_true_eq, Bool.false_eq_true, false_or]
  · simp

theorem add_reducer_task_args_overflow_iff (ndebug : Bool) (n f restf r restr uuid : Bytes)
    (command : gearman_command_t) (unique : gearman_unique_t) (workload : gearman_string_t) :
    add_reducer_task_args ndebug (some n) uuid command (stored f restf) (stored r restr)
        unique workload = .error Fault.buffer_overflow
      ↔ 1024 < n.length + f.length + 1 ∨
        ((ndebug = true ∨ command = gearman_command_t.GEARMAN_COMMAND_SUBMIT_REDUCE_JOB ∨
            command = gearman_command_t.GEARMAN_COMMAND_SUBMIT_REDUCE_JOB_BACKGROUND) ∧
          1024 < n.length + r.length + 1) := by
  obtain ⟨hfok, hfov⟩ := name_arg_some_iff n f restf
  obtain ⟨hrok, hrov⟩ := name_arg_some_iff n r restr
  by_cases hf : n.length + f.length + 1 ≤ 1024
  · obtain ⟨a0, h0⟩ := hfok.mpr hf
    cases hA : (!ndebug &&
        !(decide (command = gearman_command_t.GEARMAN_COMMAND_SUBMIT_REDUCE_JOB) ||
          decide (command = gearman_command_t.GEARMAN_COMMAND_SUBMIT_REDUCE_JOB_BACKGROUND)))
      with
    | true =>
      have hna : ¬ (ndebug = true ∨
          command = gearman_command_t.GEARMAN_COMMAND_SUBMIT_REDUCE_JOB ∨
          command = gearman_command_t.GEARMAN_COMMAND_SUBMIT_REDUCE_JOB_BACKGROUND) := by
        intro hc
        rw [(command_assertion_iff ndebug command).mpr hc] at hA
        exact Bool.noConfusion hA
      simp only [add_reducer_task_args, h0, hA, if_true]
      constructor
      · intro h
        exact Fault.noConfusion (Except.error.inj h)
      · rintro (h | ⟨h, -⟩)
        · omega
        · exact absurd h hna
    | false =>
      have hca := (command_assertion_iff ndebug command).mp hA
      by_cases hr : n.length + r.length + 1 ≤ 1024
      · obtain ⟨a2, h2⟩ := hrok.mpr hr
        simp only [add_reducer_task_args, h0, h2, hA, Bool.false_eq_true, if_false]
        constructor
        · intro h
          split at h
          · exact Fault.noConfusion (Except.error.inj h)
          · split at h
            · exact Fault.noConfusion (Except.error.inj h)
            · exact Except.noConfusion h
        · rintro (h | ⟨-, h⟩) <;> omega
      · have h2 := hrov.mpr (by omega)
        simp only [add_reducer_task_args, h0, h2, hA, Bool.false_eq_true, if_false]
        exact ⟨fun _ => Or.inr ⟨hca, by omega⟩, fun _ => trivial⟩
  · have h0 := hfov.mpr (by omega)
    simp only [add_reducer_task_args, h0]
    exact ⟨fun _ => Or.inl (by omega), fun _ => trivial⟩

/-- C18: with a namespace `n`, `add_task` and `add_reducer_task` copy `n`, the name and
the byte after it into a buffer of 1024 bytes without a test of the length; the copy
stays inside the buffer exactly when `|n| + |name| + 1 ≤ 1024` and overflows it otherwise,
for the function name in both functions and for the reducer name in `add_reducer_task`
(whose reducer copy is reached when the function copy stayed inside and the assertion on
the command passed).  Without a namespace nothing is copied and a name of any length
gives an argument. -/
theorem buffer_copy_within_bounds_iff (n f restf r restr : Bytes) (ndebug : Bool)
    (uuid : Bytes) (command : gearman_command_t) (unique : gearman_unique_t)
    (workload : gearman_string_t) (when_ : Int) :
    (((∃ a : arg_t, name_arg (some n) (stored f restf) = .ok a)
        ↔ n.length + f.length + 1 ≤ 1024) ∧
      (name_arg (some n) (stored f restf) = .error Fault.buffer_overflow
        ↔ 1024 < n.length + f.length + 1)) ∧
    (((∃ args : List arg_t,
          add_task_args (some n) uuid command (stored f restf) unique workload when_
            = .ok args) ↔ n.length + f.length + 1 ≤ 1024) ∧
      (add_task_args (some n) uuid command (stored f restf) unique workload when_
          = .error Fault.buffer_overflow ↔ 1024 < n.length + f.length + 1)) ∧
    (add_reducer_task_args ndebug (some n) uuid command (stored f restf) (stored r restr)
        unique workload = .error Fault.buffer_overflow
      ↔ 1024 < n.length + f.length + 1 ∨
        ((ndebug = true ∨ command = gearman_command_t.GEARMAN_COMMAND_SUBMIT_REDUCE_JOB ∨
            command = gearman_command_t.GEARMAN_COMMAND_SUBMIT_REDUCE_JOB_BACKGROUND) ∧
          1024 < n.length + r.length + 1)) ∧
    (assertions_pass ndebug command workload →
      ((∃ args : List arg_t,
          add_reducer_task_args ndebug (some n) uuid command (stored f restf)
            (stored r restr) unique workload = .ok args)
        ↔ n.length + f.length + 1 ≤ 1024 ∧ n.length + r.length + 1 ≤ 1024)) ∧
    (∃ a : arg_t, name_arg none (stored f restf) = .ok a) ∧
    (∃ args : List arg_t,
      add_task_args none uuid command (stored f restf) unique workload when_ = .ok args) ∧
    (assertions_pass ndebug command workload →
      ∃ args : List arg_t,
        add_reducer_task_args ndebug none uuid command (stored f restf) (stored r restr)
          unique workload = .ok args) := by
  obtain ⟨hfok, hfov⟩ := name_arg_some_iff n f restf
  obtain ⟨hrok, hrov⟩ := name_arg_some_iff n r restr
  refine ⟨⟨hfok, hfov⟩, ⟨?_, ?_⟩,
    add_reducer_task_args_overflow_iff ndebug n f restf r restr uuid command unique workload,
    ?_, ⟨_, rfl⟩, ?_, ?_⟩
  · constructor
    · rintro ⟨args, ha⟩
      by_contra hlt
      rw [add_task_args, hfov.mpr (by omega)] at ha
      exact Except.noConfusion ha
    · intro hle
      obtain ⟨a0, h0⟩ := hfok.mpr hle
      obtain ⟨tail, ht⟩ := add_task_args_cons (some n) uuid command (stored f restf) unique
        workload when_ a0 h0
      exact ⟨_, ht⟩
  · constructor
    · intro hov
      by_contra hle
      obtain ⟨a0, h0⟩ := hfok.mpr (by omega)
      obtain ⟨tail, ht⟩ := add_task_args_cons (some n) uuid command (stored f restf) unique
        workload when_ a0 h0
      rw [ht] at hov
      exact Except.noConfusion hov
    · intro hlt
      rw [add_task_args, hfov.mpr hlt]
  · intro hassert
    constructor
    · rintro ⟨args, ha⟩
      by_contra hne
      have hov : add_reducer_task_args ndebug (some n) uuid command (stored f restf)
          (stored r restr) unique workload = .error Fault.buffer_overflow := by
        rw [add_reducer_task_args_overflow_iff]
        by_cases hf : n.length + f.length + 1 ≤ 1024
        · right
          refine ⟨?_, by omega⟩
          rcases hassert with h | ⟨h, -⟩
          · exact Or.inl h
          · exact Or.inr h
        · left
          omega
      rw [hov] at ha
      exact Except.noConfusion ha
    · rintro ⟨hf, hr⟩
      obtain ⟨a0, h0⟩ := hfok.mpr hf
      obtain ⟨a2, h2⟩ := hrok.mpr hr
      exact ⟨_, add_reducer_task_args_eq ndebug (some n) uuid command (stored f restf)
        (stored r restr) unique workload a0 a2 h0 h2 hassert⟩
  · obtain ⟨tail, ht⟩ := add_task_args_cons none uuid command (stored f restf) unique
      workload when_ { ptr := some (f ++ 0 :: restf), size := f.length + 1 } rfl
    exact ⟨_, ht⟩
  · intro hassert
    exact ⟨_, add_reducer_task_args_eq ndebug none uuid command (stored f restf)
      (stored r restr) unique workload { ptr := some (f ++ 0 :: restf), size := f.length + 1 }
      { ptr := some (r ++ 0 :: restr), size := r.length + 1 } rfl rfl hassert⟩

/-- C18 at a namespace of one byte: a function name of 1022 bytes is copied inside the
buffer, one of 1023 bytes overflows it, and without a namespace the name of 1023 bytes
gives an argument. -/
theorem buffer_copy_within_bounds_witness :
    (∃ a : arg_t, name_arg (some [88]) (stored (List.replicate 1022 102) []) = .ok a) ∧
    name_arg (some [88]) (stored (List.replicate 1023 102) [])
      = .error Fault.buffer_overflow ∧
    (∃ a : arg_t, name_arg none (stored (List.replicate 1023 102) []) = .ok a) :=
  ⟨(buffer_copy_within_bounds_iff [88] (List.replicate 1022 102) [] [] [] false []
      gearman_command_t.GEARMAN_COMMAND_SUBMIT_JOB (cstring []) (cstring []) 0).1.1.mpr
      (by rw [List.length_replicate]; decide),
   (buffer_copy_within_bounds_iff [88] (List.replicate 1023 102) [] [] [] false []
      gearman_command_t.GEARMAN_COMMAND_SUBMIT_JOB (cstring []) (cstring []) 0).1.2.mpr
      (by rw [List.length_replicate]; decide),
   (buffer_copy_within_bounds_iff [88] (List.replicate 1023 102) [] [] [] false []
      gearman_command_t.GEARMAN_COMMAND_SUBMIT_JOB (cstring []) (cstring []) 0).2.2.2.2.1⟩

/-! ## The payload as a framing -/

theorem nul_split (a b x y : Bytes) (ha : 0 ∉ a) (hb : 0 ∉ b)
    (h : a ++ 0 :: x = b ++ 0 :: y) : a = b ∧ x = y := by
  induction a generalizing b with
  | nil =>
    cases b with
    | nil => simpa using h
    | cons c b =>
      simp only [List.nil_append, List.cons_append, List.cons.injEq] at h
      exact absurd (h.1 ▸ List.mem_cons_self c b) hb
  | cons d a ih =>
    cases b with
    | nil =>
      simp only [List.nil_append, List.cons_append, List.cons.injEq] at h
      exact absurd (h.1 ▸ List.mem_cons_self d a) ha
    | cons c b =>
      simp only [List.cons_append, List.cons.injEq] at h
      have ha' : 0 ∉ a := fun hm => ha (List.mem_cons_of_mem d hm)
      have hb' : 0 ∉ b := fun hm => hb (List.mem_cons_of_mem c hm)
      obtain ⟨h1, h2⟩ := ih b ha' hb' h.2
      exact ⟨by rw [h.1, h1], h2⟩

theorem digitChar_toNat_ne_zero (k : Nat) : (Nat.digitChar k).toNat ≠ 0 := by
  by_cases h : k < 16
  · interval_cases k <;> decide
  · have hstar : Nat.digitChar k = '*' := by
      unfold Nat.digitChar
      repeat (rw [if_neg (by omega)])
    rw [hstar]
    decide

theorem toDigitsCore_nul_free (b : Nat) (fuel : Nat) :
    ∀ (n : Nat) (ds : List Char), (∀ c ∈ ds, c.toNat ≠ 0) →
      ∀ c ∈ Nat.toDigitsCore b fuel n ds, c.toNat ≠ 0 := by
  induction fuel with
  | zero =>
    intro n ds hds c hc
    simp only [Nat.toDigitsCore] at hc
    exact hds c hc
  | succ fuel ih =>
    intro n ds hds c hc
    simp only [Nat.toDigitsCore] at hc
    have hds' : ∀ c ∈ Nat.digitChar (n % b) :: ds, c.toNat ≠ 0 := by
      intro c hc
      rcases List.mem_cons.mp hc with h | h
      · rw [h]
        exact digitChar_toNat_ne_zero _
      · exact hds c h
    split at hc
    · exact hds' c hc
    · exact ih _ _ hds' c hc

theorem lld_nul_free (v : Int) : 0 ∉ lld v := by
  have hdec : ∀ n : Nat, 0 ∉ decimal n := by
    intro n hm
    simp only [decimal, List.mem_map] at hm
    obtain ⟨c, hc, hz⟩ := hm
    exact toDigitsCore_nul_free 10 (n + 1) n [] (fun _ h => absurd h (List.not_mem_nil _)) c
      hc hz
  unfold lld
  split
  · intro hm
    rcases List.mem_cons.mp hm with h | h
    · exact absurd h (by decide)
    · exact hdec _ h
  · exact hdec _

theorem name_arg_stored_bytes (ns : Option Bytes) (s rest : Bytes) (a : arg_t)
    (h : name_arg ns (stored s rest) = .ok a) :
    arg_bytes a = some (namespaced ns s ++ [0]) := by
  cases ns with
  | none =>
    obtain ⟨a1, h1, hb, -⟩ := name_arg_stored none s rest (fun n hn => Option.noConfusion hn)
    rw [h1] at h
    cases h
    exact hb
  | some n =>
    by_cases hfit : n.length + s.length + 1 ≤ 1024
    · obtain ⟨a1, h1, hb, -⟩ := name_arg_stored (some n) s rest
        (fun m hm => by cases hm; exact hfit)
      rw [h1] at h
      cases h
      exact hb
    · rw [name_arg_overflow n s rest (by omega)] at h
      exact Except.noConfusion h

theorem epoch_arg_bytes_some (v : Int) (tb : Bytes)
    (h : arg_bytes (epoch_arg v) = some tb) : tb = lld v ++ [0] := by
  by_cases hl : (lld v).length ≤ 29
  · have htake : (lld v).take (30 - 1) = lld v := List.take_of_length_le (by omega)
    have h1 : epoch_arg v = { ptr := some (lld v ++ [0]), size := (lld v).length + 1 } := by
      simp only [epoch_arg, snprintf_lld, htake]
    rw [h1] at h
    simp [arg_bytes] at h
    rw [← h]
    exact List.take_of_length_le (by simp)
  · exfalso
    have hlen : ((lld v).take (30 - 1) ++ [0]).length < (lld v).length + 1 := by
      simp only [List.length_append, List.length_take, List.length_singleton]
      omega
    simp only [arg_bytes, epoch_arg, snprintf_lld] at h
    rw [if_neg (by omega)] at h
    exact Option.noConfusion h

theorem add_task_args_concat (ns : Option Bytes) (uuid : Bytes) (command : gearman_command_t)
    (f rf u ru : Bytes) (w : gearman_string_t) (when_ : Int) (args : List arg_t) (p : Bytes)
    (hn : u ≠ [])
    (ha : add_task_args ns uuid command (stored f rf) (stored u ru) w when_ = .ok args)
    (hp : args_concat args = some p) :
    ∃ wb : Bytes, arg_bytes { ptr := w.c_str, size := w.size } = some wb ∧
      ((command ≠ gearman_command_t.GEARMAN_COMMAND_SUBMIT_JOB_EPOCH ∧
          p = namespaced ns f ++ 0 :: (u ++ 0 :: wb)) ∨
        (command = gearman_command_t.GEARMAN_COMMAND_SUBMIT_JOB_EPOCH ∧
          p = namespaced ns f ++ 0 :: (u ++ 0 :: (lld when_ ++ 0 :: wb)))) := by
  obtain ⟨-, hub⟩ := unique_arg_stored uuid u ru hn
  cases h0 : name_arg ns (stored f rf) with
  | error e =>
    simp only [add_task_args, h0] at ha
    exact Except.noConfusion ha
  | ok a0 =>
    have hb0 := name_arg_stored_bytes ns f rf a0 h0
    cases hw : arg_bytes { ptr := w.c_str, size := w.size } with
    | none =>
      exfalso
      by_cases hcmd : command = gearman_command_t.GEARMAN_COMMAND_SUBMIT_JOB_EPOCH
      · simp only [add_task_args, h0, hcmd, if_true, Except.ok.injEq] at ha
        rw [← ha] at hp
        simp only [args_concat, gearman_c_str, gearman_size, hw] at hp
        split at hp <;> simp_all
      · simp only [add_task_args, h0, hcmd, if_false, Except.ok.injEq] at ha
        rw [← ha] at hp
        simp only [args_concat, gearman_c_str, gearman_size, hw] at hp
        split at hp <;> simp_all
    | some wb =>
      refine ⟨wb, rfl, ?_⟩
      by_cases hcmd : command = gearman_command_t.GEARMAN_COMMAND_SUBMIT_JOB_EPOCH
      · right
        refine ⟨hcmd, ?_⟩
        simp only [add_task_args, h0, hcmd, if_true, Except.ok.injEq] at ha
        rw [← ha] at hp
        cases ht : arg_bytes (epoch_arg when_) with
        | none =>
          simp only [args_concat, gearman_c_str, gearman_size, hw, hb0, hub, ht] at hp
          exact Option.noConfusion hp
        | some tb =>
          have htb := epoch_arg_bytes_some when_ tb ht
          simp only [args_concat, gearman_c_str, gearman_size, hw, hb0, hub, ht,
            Option.some.injEq] at hp
          rw [← hp, htb]
          simp
      · left
        refine ⟨hcmd, ?_⟩
        simp only [add_task_args, h0, hcmd, if_false, Except.ok.injEq] at ha
        rw [← ha] at hp
        simp only [args_concat, gearman_c_str, gearman_size, hw, hb0, hub,
          Option.some.injEq] at hp
        rw [← hp]
        simp

/-- C19: for a fixed command and namespace the payload `add_task` builds frames its
parts uniquely as long as the names hold no NUL: when two submissions with non-empty
unique ids, and with function names and unique ids free of NUL bytes, give the same
concatenated argument bytes, their function names, their unique ids and their workload
bytes are equal, whatever bytes the workloads hold.  With a NUL inside a function name
this fails: two different triples give the same bytes. -/
theorem payload_framing_injective (ns : Option Bytes) (command : gearman_command_t)
    (uuid1 uuid2 f1 rf1 f2 rf2 u1 ru1 u2 ru2 : Bytes) (w1 w2 : gearman_string_t)
    (when1 when2 : Int) (args1 args2 : List arg_t) (p : Bytes)
    (hf1 : 0 ∉ f1) (hf2 : 0 ∉ f2) (hu1 : 0 ∉ u1) (hu2 : 0 ∉ u2)
    (hn1 : u1 ≠ []) (hn2 : u2 ≠ [])
    (ha1 : add_task_args ns uuid1 command (stored f1 rf1) (stored u1 ru1) w1 when1
      = .ok args1)
    (ha2 : add_task_args ns uuid2 command (stored f2 rf2) (stored u2 ru2) w2 when2
      = .ok args2)
    (hp1 : args_concat args1 = some p) (hp2 : args_concat args2 = some p) :
    (f1 = f2 ∧ u1 = u2 ∧
      arg_bytes { ptr := w1.c_str, size := w1.size }
        = arg_bytes { ptr := w2.c_str, size := w2.size }) ∧
    (∃ (g1 g2 v1 v2 : Bytes) (x1 x2 : gearman_string_t) (b1 b2 : List arg_t) (q : Bytes),
      0 ∈ g1 ∧ 0 ∉ v1 ∧ 0 ∉ v2 ∧ v1 ≠ [] ∧ v2 ≠ [] ∧
      add_task_args none [] gearman_command_t.GEARMAN_COMMAND_SUBMIT_JOB (stored g1 [])
        (stored v1 []) x1 0 = .ok b1 ∧
      add_task_args none [] gearman_command_t.GEARMAN_COMMAND_SUBMIT_JOB (stored g2 [])
        (stored v2 []) x2 0 = .ok b2 ∧
      args_concat b1 = some q ∧ args_concat b2 = some q ∧
      (g1 ≠ g2 ∧ v1 ≠ v2 ∧
        arg_bytes { ptr := x1.c_str, size := x1.size }
          ≠ arg_bytes { ptr := x2.c_str, size := x2.size })) := by
  constructor
  · obtain ⟨wb1, hw1, hc1⟩ := add_task_args_concat ns uuid1 command f1 rf1 u1 ru1 w1 when1
      args1 p hn1 ha1 hp1
    obtain ⟨wb2, hw2, hc2⟩ := add_task_args_concat ns uuid2 command f2 rf2 u2 ru2 w2 when2
      args2 p hn2 ha2 hp2
    have hcancel : ∀ x y : Bytes, namespaced ns f1 ++ x = namespaced ns f2 ++ y →
        f1 ++ x = f2 ++ y := by
      intro x y h
      cases ns with
      | none => exact h
      | some n =>
        simp only [namespaced, List.append_assoc] at h
        exact List.append_cancel_left h
    rcases hc1 with ⟨hne1, hq1⟩ | ⟨he1, hq1⟩
    · rcases hc2 with ⟨-, hq2⟩ | ⟨he2, -⟩
      · have h := hcancel _ _ (hq1.symm.trans hq2)
        obtain ⟨hf, h'⟩ := nul_split f1 f2 _ _ hf1 hf2 h
        obtain ⟨hu, hw⟩ := nul_split u1 u2 _ _ hu1 hu2 h'
        exact ⟨hf, hu, by rw [hw1, hw2, hw]⟩
      · exact absurd he2 hne1
    · rcases hc2 with ⟨hne2, -⟩ | ⟨-, hq2⟩
      · exact absurd he1 hne2
      · have h := hcancel _ _ (hq1.symm.trans hq2)
        obtain ⟨hf, h'⟩ := nul_split f1 f2 _ _ hf1 hf2 h
        obtain ⟨hu, h''⟩ := nul_split u1 u2 _ _ hu1 hu2 h'
        obtain ⟨-, hw⟩ := nul_split (lld when1) (lld when2) _ _ (lld_nul_free when1)
          (lld_nul_free when2) h''
        exact ⟨hf, hu, by rw [hw1, hw2, hw]⟩
  · exact ⟨[97, 0, 98], [97], [99], [98], cstring [119],
      { c_str := some [99, 0, 119], size := 3 }, _, _, [97, 0, 98, 0, 99, 0, 119],
      by decide, by decide, by decide, by decide, by decide, rfl, rfl, by decide,
      by decide, by decide, by decide, by decide⟩

/-- C19 at two submissions of the function `f` with the unique id `u` and the workload
`w`, one from storage that goes on after the NUL. -/
theorem payload_framing_injective_witness :
    ascii "f" = ascii "f" ∧ ascii "u" = ascii "u" ∧
      arg_bytes { ptr := (cstring (ascii "w")).c_str, size := (cstring (ascii "w")).size }
        = arg_bytes { ptr := (stored (ascii "w") [1, 2]).c_str,
                      size := (stored (ascii "w") [1, 2]).size } :=
  (payload_framing_injective (some (ascii "X-"))
    gearman_command_t.GEARMAN_COMMAND_SUBMIT_JOB_EPOCH env_ok.uuid [] (ascii "f") []
    (ascii "f") [7] (ascii "u") [] (ascii "u") [8] (cstring (ascii "w"))
    (stored (ascii "w") [1, 2]) 2000000000 2000000000
    [{ ptr := some [88, 45, 102, 0], size := 4 }, { ptr := some [117, 0], size := 2 },
     epoch_arg 2000000000, { ptr := some [119, 0], size := 1 }]
    [{ ptr := some [88, 45, 102, 0], size := 4 }, { ptr := some [117, 0, 8], size := 2 },
     epoch_arg 2000000000, { ptr := some [119, 0, 1, 2], size := 1 }]
    (ascii "X-f" ++ [0] ++ ascii "u" ++ [0] ++ ascii "2000000000" ++ [0] ++ ascii "w")
    (by decide) (by decide) (by decide) (by decide) (by decide) (by decide) rfl rfl
    (by decide) (by decide)).1

/-! ## The overload taking C strings, when it fails -/

/-- C20: called without a client, the overload of `add_task` taking C strings returns
no task, stores `GEARMAN_ERRNO` through `ret_ptr` and sets `errno` to `EINVAL`, with no
client state read or changed, and it does so with a NULL `ret_ptr` as well (the code then
goes to a local variable).  With a client and an inner submission that returns no task,
it returns no task and stores the error code recorded on the client. -/
theorem cstr_overload_failures (env : Env) (task : Option gearman_task_st)
    (context : Option Nat) (command : gearman_command_t)
    (function_name unique workload_str : Ptr) (workload_size : Nat) (when_ : Int)
    (ret_ptr : Option gearman_return_t) (actions : gearman_actions_t) :
    add_task_cstr env none task context command function_name unique workload_str
        workload_size when_ ret_ptr actions
      = .ok { task := none, client := none,
              ret := ret_ptr.map (fun _ => gearman_return_t.GEARMAN_ERRNO),
              errno := some EINVAL } ∧
    (∀ (client c1 : gearman_client_st) (function : gearman_string_t) (unique_size : Nat),
      gearman_string_param_cstr function_name = .ok function →
      (if unique.isSome then strlen unique else .ok 0) = .ok unique_size →
      add_task env client task context command function
        (gearman_unique_make unique unique_size)
        { c_str := workload_str, size := workload_size } when_ actions = .ok (none, c1) →
      add_task_cstr env (some client) task context command function_name unique
          workload_str workload_size when_ ret_ptr actions
        = .ok { task := none, client := some c1,
                ret := ret_ptr.map (fun _ => c1.universal.error_rc), errno := none } ∧
      c1.universal.error_rc ≠ gearman_return_t.GEARMAN_SUCCESS) := by
  refine ⟨rfl, ?_⟩
  intro client c1 function unique_size hf hn hinner
  refine ⟨?_, add_task_none_error env client task context command function _ _ when_
    actions c1 hinner⟩
  simp only [add_task_cstr, hf, hn, hinner, gearman_universal_error_code]

/-- C20 at a workload of five bytes behind a NULL pointer: no task, and
`GEARMAN_INVALID_ARGUMENT` stored through `ret_ptr`. -/
theorem cstr_overload_failures_witness :
    ∃ c1 : gearman_client_st,
      add_task_cstr env_ok (some (Client_new universal_plain)) none none
          gearman_command_t.GEARMAN_COMMAND_SUBMIT_JOB (some (ascii "f" ++ [0])) none none 5
          0 (some gearman_return_t.GEARMAN_SUCCESS) actions_default
        = .ok { task := none, client := some c1,
                ret := some gearman_return_t.GEARMAN_INVALID_ARGUMENT, errno := none } :=
  ⟨_, ((cstr_overload_failures env_ok none none
      gearman_command_t.GEARMAN_COMMAND_SUBMIT_JOB (some (ascii "f" ++ [0])) none none 5 0
      (some gearman_return_t.GEARMAN_SUCCESS) actions_default).2
      (Client_new universal_plain) _ (stored (ascii "f") []) 0
      (gearman_string_param_cstr_stored (ascii "f") [] (by decide)) rfl
      (add_task_invalid env_ok (Client_new universal_plain) none none
        gearman_command_t.GEARMAN_COMMAND_SUBMIT_JOB (stored (ascii "f") [])
        (gearman_unique_make none 0) { c_str := none, size := 5 } 0 actions_default
        (by decide))).1⟩

end Gearman
